import Mathlib

/-!
Verification of the UR secondary-interface protocol engine in
`src/airobot/utils/ur_tcp_util.py` (classes `ParserUtils` and `SecondaryMonitor`).

The Python code is shallowly embedded: byte strings become `List Nat` (each
element a byte value), Python dictionaries become insertion-ordered association
lists, `struct` unpacking becomes an explicit recursion over format characters,
and code that can raise `ParsingException` returns `Except String`.  IEEE-754
float fields (`d` and `f` format characters) are kept as their raw bytes in a
dedicated `Value.vfloat` constructor: no claim inspects a decoded float value,
only field presence and counts.
-/

namespace URTcp

set_option maxHeartbeats 1600000

deriving instance DecidableEq for Except

/-- Big-endian interpretation of a byte list, each element reduced mod 256
(mirrors `struct.unpack` with unsigned formats). -/
def bytesToNat (bs : List Nat) : Nat := bs.foldl (fun acc b => acc * 256 + b % 256) 0

/-- Two's-complement reinterpretation of a `w`-bit unsigned value, used for the
signed struct formats `i`, `h`, `b`, `q`. -/
def toSigned (w : Nat) (n : Nat) : Int :=
  if n < 2 ^ (w - 1) then (n : Int) else (n : Int) - 2 ^ w

/-- Lookup in an insertion-ordered association list (Python `d[k]` /
`k in d`). -/
def alookup {α : Type} : List (String × α) → String → Option α
  | [], _ => none
  | (k', v) :: t, k => if k' = k then some v else alookup t k

/-- Assignment `d[k] = v` on an insertion-ordered association list: replaces the
value in place when the key exists, appends otherwise, exactly like a Python
dict. -/
def ainsert {α : Type} : List (String × α) → String → α → List (String × α)
  | [], k, v => [(k, v)]
  | (k', v') :: t, k, v => if k' = k then (k, v) :: t else (k', v') :: ainsert t k v

/-- A decoded field value.  `vfloat` keeps the raw IEEE-754 bytes of `d`/`f`
fields uninterpreted. -/
inductive Value where
  | vint (i : Int)
  | vbool (b : Bool)
  | vbytes (bs : List Nat)
  | vfloat (raw : List Nat)
deriving Repr, DecidableEq

/-- One decoded packet record (the dictionary built by `ParserUtils._get_data`). -/
abbrev PRec := List (String × Value)

/-- The batch dictionary built by `ParserUtils.parse` (packet-type name to
record). -/
abbrev PDict := List (String × PRec)

/-- The protocol version pair `self.version`, ordered lexicographically as
Python orders tuples. -/
abbrev Version := Nat × Nat

/-- Python `a < b` on version tuples (lexicographic). -/
def verLt (a b : Version) : Bool := a.1 < b.1 || (a.1 = b.1 && a.2 < b.2)

/-- Python `a >= b` on version tuples. -/
def verGe (a b : Version) : Bool := !(verLt a b)

/-- Python `str.endswith` restricted to what the parser needs, phrased on the
underlying character lists so that it evaluates by kernel reduction. -/
def pyEndsWith (s suffix : String) : Bool := suffix.data.isSuffixOf s.data

/-- Characters skipped by the `_get_data` loop (whitespace and byte-order
marks). -/
def skipChar (c : Char) : Bool := c = ' ' || c = '!' || c = '>' || c = '<'

/-- Size in bytes of one fixed struct format character
(`struct.calcsize(fmt[j])`); `none` for a character `struct` would reject.
Every format string in this file uses only known characters. -/
def calcsize (c : Char) : Option Nat :=
  if c = 'i' || c = 'I' || c = 'f' then some 4
  else if c = 'B' || c = 'b' || c = 'c' || c = '?' then some 1
  else if c = 'q' || c = 'Q' || c = 'd' then some 8
  else if c = 'h' || c = 'H' then some 2
  else none

/-- Decode of one fixed field, `struct.unpack("!" + f, bytes)[0]`. -/
def unpackOne (c : Char) (bs : List Nat) : Value :=
  if c = 'i' then .vint (toSigned 32 (bytesToNat bs))
  else if c = 'I' then .vint (bytesToNat bs)
  else if c = 'Q' then .vint (bytesToNat bs)
  else if c = 'q' then .vint (toSigned 64 (bytesToNat bs))
  else if c = 'h' then .vint (toSigned 16 (bytesToNat bs))
  else if c = 'H' then .vint (bytesToNat bs)
  else if c = 'b' then .vint (toSigned 8 (bytesToNat bs))
  else if c = 'B' then .vint (bytesToNat bs)
  else if c = '?' then .vbool (bytesToNat bs != 0)
  else if c = 'c' then .vbytes bs
  else .vfloat bs

/-- Python slice-index semantics: a negative index counts from the end, and
indices clamp to the list bounds. -/
def pyIdx (len : Nat) (k : Int) : Nat := if k < 0 then (len + k).toNat else k.toNat

/-- The loop body of `ParserUtils._get_data`: walk the format characters and
key names in lockstep, consuming `tmpdata`.  `prev` is the most recently
consumed key name (`key_names[i - 1]` in the source, used by the size-prefixed
array case `A`).  An `A` in second-to-last position consumes the whole
remaining payload; the source then advances `j` by 2, ending the loop, which is
inlined here as an immediate return. -/
def getDataLoop : List Char → List String → List Nat → PRec → Option String → Except String PRec
  | [], _, _, d, _ => .ok d
  | _ :: _, [], _, d, _ => .ok d
  | c :: fr, n :: nr, tmpdata, d, prev =>
    if skipChar c then getDataLoop fr (n :: nr) tmpdata d prev
    else if c = 'A' then
      if fr.length = 1 then
        .ok (ainsert d n (.vbytes tmpdata))
      else
        match prev with
        | some asn =>
          if pyEndsWith asn "Size" then
            match alookup d asn with
            | some (.vint sz) =>
              match fr with
              | [] => .ok (ainsert d n (.vbytes (tmpdata.take (pyIdx tmpdata.length sz))))
              | _ :: fr2 =>
                getDataLoop fr2 nr (tmpdata.drop (pyIdx tmpdata.length sz))
                  (ainsert d n (.vbytes (tmpdata.take (pyIdx tmpdata.length sz)))) (some n)
            | _ => .error "KeyError"
          else .error "Error, array without size"
        | none => .error "Error, array without size"
    else
      match calcsize c with
      | none => .error "struct.error"
      | some fmtsize =>
        if tmpdata.length < fmtsize then
          .error "Error, length of data smaller than advertized"
        else
          getDataLoop fr nr (tmpdata.drop fmtsize)
            (ainsert d n (unpackOne c (tmpdata.take fmtsize))) (some n)

/-- Python `str.strip()` on a format string (only spaces occur in the formats
of this file). -/
def pstrip (s : List Char) : List Char :=
  ((s.dropWhile (· = ' ')).reverse.dropWhile (· = ' ')).reverse

/-- `ParserUtils._get_data(data, struct_fmt, key_names)`. -/
def get_data (data : List Nat) (fmt : String) (names : List String) : Except String PRec :=
  getDataLoop (pstrip fmt.data) names data [] none

/-- `ParserUtils.get_header`: `struct.unpack("!iB", data[0:5])` giving the
declared packet size (signed 32-bit) and the packet type byte. -/
def get_header (data : List Nat) : Int × Nat :=
  (toSigned 32 (bytesToNat (data.take 4)), (data.drop 4).headD 0 % 256)

/-- `ParserUtils.analyze_header`: validate the declared size against the
buffered data and split the packet off the front. -/
def analyze_header (data : List Nat) : Except String (Int × Nat × List Nat × List Nat) :=
  if data.length < 5 then .error "Packet size smaller than header size (5 bytes)"
  else if (get_header data).1 < 5 then
    .error "Error, declared length of data smaller than its own header (5)"
  else if (data.length : Int) < (get_header data).1 then
    .error "Error, length of data smaller than declared"
  else .ok ((get_header data).1, (get_header data).2,
    data.take (get_header data).1.toNat, data.drop (get_header data).1.toNat)

/-- `ParserUtils.find_first_packet`: scan for the first position holding a
valid header (`5 <= psize <= 2000` and type 16), dropping one leading byte per
failed position; return the frame and the remainder once the buffer holds the
whole declared size, `none` while the buffer is incomplete.  The `counter` and
`limit` variables of the source only drive log messages and do not influence
the returned value, so they are omitted. -/
def find_first_packet : List Nat → Option (List Nat × List Nat)
  | [] => none
  | b0 :: tl =>
    if 5 ≤ (b0 :: tl).length then
      if (get_header (b0 :: tl)).1 < 5 ∨ 2000 < (get_header (b0 :: tl)).1 ∨
          (get_header (b0 :: tl)).2 ≠ 16 then
        find_first_packet tl
      else if (get_header (b0 :: tl)).1 ≤ ((b0 :: tl).length : Int) then
        some ((b0 :: tl).take (get_header (b0 :: tl)).1.toNat,
          (b0 :: tl).drop (get_header (b0 :: tl)).1.toNat)
      else none
    else none

/-- Key names of the `RobotModeData` layout selected for declared size 38
(firmware 3.0). -/
def rmdNames30 : List String :=
  ["size", "type", "timestamp", "isRobotConnected", "isRealRobotEnabled", "isPowerOnRobot",
   "isEmergencyStopped", "isSecurityStopped", "isProgramRunning", "isProgramPaused",
   "robotMode", "controlMode", "speedFraction", "speedScaling"]

/-- Key names for declared size 46 (firmware 3.2): the source lists one extra
name, `speedFractionLimit`. -/
def rmdNames32 : List String := rmdNames30 ++ ["speedFractionLimit"]

/-- Key names for declared size 47 (firmware 3.5): two extra names. -/
def rmdNames35 : List String := rmdNames32 ++ ["reservedByUR"]

/-- Key names of the legacy pre-3.0 `RobotModeData` layout. -/
def rmdNamesLegacy : List String :=
  ["size", "type", "timestamp", "isRobotConnected", "isRealRobotEnabled", "isPowerOnRobot",
   "isEmergencyStopped", "isSecurityStopped", "isProgramRunning", "isProgramPaused",
   "robotMode", "speedFraction"]

/-- Key names of the `JointData` layout, generated per joint as in the source
loop. -/
def jointNames : List String :=
  ["size", "type"] ++
    ((List.range 6).map (fun i =>
      ["q_actual" ++ toString i, "q_target" ++ toString i, "qd_actual" ++ toString i,
       "I_actual" ++ toString i, "V_actual" ++ toString i, "T_motor" ++ toString i,
       "T_micro" ++ toString i, "jointMode" ++ toString i])).flatten

/-- Key names of the `MasterBoardData` layout. -/
def mbdNames : List String :=
  ["size", "type", "digitalInputBits", "digitalOutputBits", "analogInputRange0",
   "analogInputRange1", "analogInput0", "analogInput1", "analogInputDomain0",
   "analogInputDomain1", "analogOutput0", "analogOutput1", "masterBoardTemperature",
   "robotVoltage48V", "robotCurrent", "masterIOCurrent"]

/-- Key names of the `ToolData` layout. -/
def toolNames : List String :=
  ["size", "type", "analoginputRange2", "analoginputRange3", "analogInput2", "analogInput3",
   "toolVoltage48V", "toolOutputVoltage", "toolCurrent", "toolTemperature", "toolMode"]

/-- Success inversion for `analyze_header`, also giving the facts needed for
termination of the parse loop. -/
lemma analyze_header_ok {data : List Nat} {ps : Int} {pt : Nat} {pd rest : List Nat}
    (h : analyze_header data = .ok (ps, pt, pd, rest)) :
    5 ≤ ps ∧ ps ≤ (data.length : Int) ∧ pd = data.take ps.toNat ∧ rest = data.drop ps.toNat := by
  unfold analyze_header at h
  split_ifs at h with h1 h2 h3
  simp only [Except.ok.injEq, Prod.mk.injEq] at h
  obtain ⟨hps, _, hpd, hrest⟩ := h
  subst hps hpd hrest
  refine ⟨by omega, by omega, rfl, rfl⟩

/-- Length bookkeeping for a successful `analyze_header`. -/
lemma analyze_header_len {data : List Nat} {ps : Int} {pt : Nat} {pd rest : List Nat}
    (h : analyze_header data = .ok (ps, pt, pd, rest)) :
    5 ≤ data.length ∧ rest.length < data.length ∧ pd.length = ps.toNat ∧ pd ++ rest = data := by
  obtain ⟨h5, hle, hpd, hrest⟩ := analyze_header_ok h
  subst hpd hrest
  refine ⟨by omega, ?_, ?_, List.take_append_drop _ _⟩
  · simp
    omega
  · simp
    omega

/-- The body of `ParserUtils.parse`: the `while data:` loop.  `v` is
`self.version` (threaded because the source mutates it, including before a
decode that may raise), `allData` the dictionary under construction.  The
version component of the result is the final parser version even when decoding
raises, matching the mutation-then-raise behaviour of the source. -/
def parseLoop (v : Version) (allData : PDict) (data : List Nat) :
    Version × Except String PDict :=
  if data.isEmpty then (v, .ok allData)
  else
    match h : analyze_header data with
    | .error e => (v, .error e)
    | .ok (psize, ptype, pdata, rest) =>
      if ptype = 16 then
        match get_data pdata "!iB" ["size", "type"] with
        | .error e => (v, .error e)
        | .ok r =>
          parseLoop v (ainsert allData "SecondaryClientData" r) ((pdata ++ rest).drop 5)
      else if ptype = 0 then
        if psize = 38 then
          match get_data pdata "!IBQ???????BBdd" rmdNames30 with
          | .error e => ((3, 0), .error e)
          | .ok r => parseLoop (3, 0) (ainsert allData "RobotModeData" r) rest
        else if psize = 46 then
          match get_data pdata "!IBQ???????BBdd" rmdNames32 with
          | .error e => ((3, 2), .error e)
          | .ok r => parseLoop (3, 2) (ainsert allData "RobotModeData" r) rest
        else if psize = 47 then
          match get_data pdata "!IBQ???????BBddc" rmdNames35 with
          | .error e => ((3, 5), .error e)
          | .ok r => parseLoop (3, 5) (ainsert allData "RobotModeData" r) rest
        else
          match get_data pdata "!iBQ???????Bd" rmdNamesLegacy with
          | .error e => (v, .error e)
          | .ok r => parseLoop v (ainsert allData "RobotModeData" r) rest
      else if ptype = 1 then
        match get_data pdata "!iB dddffffB dddffffB dddffffBdddffffB dddffffB dddffffB"
            jointNames with
        | .error e => (v, .error e)
        | .ok r => parseLoop v (ainsert allData "JointData" r) rest
      else if ptype = 4 then
        if verLt v (3, 2) then
          match get_data pdata "iBdddddd" ["size", "type", "X", "Y", "Z", "Rx", "Ry", "Rz"] with
          | .error e => (v, .error e)
          | .ok r => parseLoop v (ainsert allData "CartesianInfo" r) rest
        else
          match get_data pdata "iBdddddddddddd"
              ["size", "type", "X", "Y", "Z", "Rx", "Ry", "Rz", "tcpOffsetX", "tcpOffsetY",
               "tcpOffsetZ", "tcpOffsetRx", "tcpOffsetRy", "tcpOffsetRz"] with
          | .error e => (v, .error e)
          | .ok r => parseLoop v (ainsert allData "CartesianInfo" r) rest
      else if ptype = 5 then
        match get_data pdata "iBddd" ["size", "type"] with
        | .error e => (v, .error e)
        | .ok r => parseLoop v (ainsert allData "LaserPointer(OBSOLETE)" r) rest
      else if ptype = 3 then
        match get_data pdata
            (if verGe v (3, 0) then "iBiibbddbbddffffBBb" else "iBhhbbddbbddffffBBb")
            mbdNames with
        | .error e => (v, .error e)
        | .ok r => parseLoop v (ainsert allData "MasterBoardData" r) rest
      else if ptype = 2 then
        match get_data pdata "iBbbddfBffB" toolNames with
        | .error e => (v, .error e)
        | .ok r => parseLoop v (ainsert allData "ToolData" r) rest
      else if ptype = 9 then
        parseLoop v allData rest
      else if ptype = 8 ∧ verGe v (3, 2) then
        match get_data pdata "iB??"
            ["size", "type", "teachButtonPressed", "teachButtonEnabled"] with
        | .error e => (v, .error e)
        | .ok r => parseLoop v (ainsert allData "AdditionalInfo" r) rest
      else if ptype = 7 ∧ verGe v (3, 2) then
        match get_data pdata "iBddddddd"
            ["size", "type", "x", "y", "z", "rx", "ry", "rz", "robotDexterity"] with
        | .error e => (v, .error e)
        | .ok r => parseLoop v (ainsert allData "ForceModeData" r) rest
      else if ptype = 20 then
        match get_data pdata "!iB Qbb"
            ["size", "type", "timestamp", "source", "robotMessageType"] with
        | .error e => (v, .error e)
        | .ok tmp =>
          if alookup tmp "robotMessageType" = some (.vint 3) then
            match get_data pdata "!iBQbb bAbBBiAb"
                ["size", "type", "timestamp", "source", "robotMessageType", "projectNameSize",
                 "projectName", "majorVersion", "minorVersion", "svnRevision", "buildDate"] with
            | .error e => (v, .error e)
            | .ok r => parseLoop v (ainsert allData "VersionMessage" r) rest
          else if alookup tmp "robotMessageType" = some (.vint 6) then
            match get_data pdata "!iBQbb iiAc"
                ["size", "type", "timestamp", "source", "robotMessageType", "code", "argument",
                 "messageText"] with
            | .error e => (v, .error e)
            | .ok r => parseLoop v (ainsert allData "robotCommMessage" r) rest
          else if alookup tmp "robotMessageType" = some (.vint 1) then
            match get_data pdata "!iBQbb iAc"
                ["size", "type", "timestamp", "source", "robotMessageType", "id",
                 "messageText"] with
            | .error e => (v, .error e)
            | .ok r => parseLoop v (ainsert allData "labelMessage" r) rest
          else if alookup tmp "robotMessageType" = some (.vint 2) then
            match get_data pdata "!iBQbb ??BAcAc"
                ["size", "type", "timestamp", "source", "robotMessageType", "warning", "error",
                 "titleSize", "messageTitle", "messageText"] with
            | .error e => (v, .error e)
            | .ok r => parseLoop v (ainsert allData "popupMessage" r) rest
          else if alookup tmp "robotMessageType" = some (.vint 0) then
            match get_data pdata "!iBQbb Ac"
                ["size", "type", "timestamp", "source", "robotMessageType", "messageText"] with
            | .error e => (v, .error e)
            | .ok r => parseLoop v (ainsert allData "messageText" r) rest
          else if alookup tmp "robotMessageType" = some (.vint 8) then
            match get_data pdata "!iBQbb iiBAcAc"
                ["size", "type", "timestamp", "source", "robotMessageType", "code", "argument",
                 "titleSize", "messageTitle", "messageText"] with
            | .error e => (v, .error e)
            | .ok r => parseLoop v (ainsert allData "varMessage" r) rest
          else if alookup tmp "robotMessageType" = some (.vint 7) then
            match get_data pdata "!iBQbb iiBAcAc"
                ["size", "type", "timestamp", "source", "robotMessageType", "code", "argument",
                 "titleSize", "messageTitle", "messageText"] with
            | .error e => (v, .error e)
            | .ok r => parseLoop v (ainsert allData "keyMessage" r) rest
          else if alookup tmp "robotMessageType" = some (.vint 5) then
            match get_data pdata "!iBQbb iiAc"
                ["size", "type", "timestamp", "source", "robotMessageType", "code", "argument",
                 "messageText"] with
            | .error e => (v, .error e)
            | .ok r => parseLoop v (ainsert allData "keyMessage" r) rest
          else parseLoop v allData rest
      else parseLoop v allData rest
termination_by data.length
decreasing_by
  all_goals
    (obtain ⟨h0, h1, h2, h3⟩ := analyze_header_len h
     first
     | exact h1
     | (have h4 := congrArg List.length h3
        simp only [List.length_append] at h4
        simp only [List.length_drop, List.length_append]
        omega))

/-- `ParserUtils.parse(data)` starting from parser version `v` with an empty
result dictionary.  Returns the final parser version together with either the
batch dictionary or the `ParsingException` message. -/
def parse (v : Version) (data : List Nat) : Version × Except String PDict :=
  parseLoop v [] data

/-- `SecondaryMonitor.check_if_running`: the six-flag health conjunction over
the latest `RobotModeData` record.  Python tests `== rmode`, `is True`,
`is False`; a record decoded by `parse` always carries these six keys. -/
def check_if_running (rmd : PRec) (rmode : Int) : Bool :=
  decide (alookup rmd "robotMode" = some (.vint rmode)) &&
  decide (alookup rmd "isRealRobotEnabled" = some (.vbool true)) &&
  decide (alookup rmd "isEmergencyStopped" = some (.vbool false)) &&
  decide (alookup rmd "isSecurityStopped" = some (.vbool false)) &&
  decide (alookup rmd "isRobotConnected" = some (.vbool true)) &&
  decide (alookup rmd "isPowerOnRobot" = some (.vbool true))

/-- The monitor state touched by one receive-loop iteration: the shared
dictionary `self._dict`, the parser version `self._parser.version`, the derived
`self.running` flag and `self.lastpacket_timestamp`. -/
structure MonState where
  dict : PDict
  version : Version
  running : Bool
  lastpacket : Nat
deriving Repr, DecidableEq

/-- One iteration of the receive/parse/update section of
`SecondaryMonitor.run`, applied to the frame returned by `_get_data` and to an
abstract current time `now`.  On `ParsingException` the loop logs and
continues, leaving `self._dict` untouched (the parser version keeps any
mutation made before the raise).  The freshly parsed dictionary replaces
`self._dict` before the `RobotModeData` presence check; when that check fails
the loop continues without touching the timestamp or the running flag. -/
def runIteration (st : MonState) (frameData : List Nat) (now : Nat) : MonState :=
  match parse st.version frameData with
  | (v, .error _) => { st with version := v }
  | (v, .ok tmpdict) =>
    match alookup tmpdict "RobotModeData" with
    | none => { st with dict := tmpdict, version := v }
    | some rmd =>
      let rmode : Int := if verGe v (3, 0) then 7 else 0
      { st with
        dict := tmpdict
        version := v
        lastpacket := now
        running := check_if_running rmd rmode }

/-- `SecondaryMonitor.get_cartesian_info` with `wait=False`: an explicit `in`
check, returning `None` (here `.ok none`) when the record was never seen. -/
def get_cartesian_info (d : PDict) : Except String (Option PRec) :=
  match alookup d "CartesianInfo" with
  | some r => .ok (some r)
  | none => .ok none

/-- `SecondaryMonitor.get_joint_data` with `wait=False`. -/
def get_joint_data (d : PDict) : Except String (Option PRec) :=
  match alookup d "JointData" with
  | some r => .ok (some r)
  | none => .ok none

/-- `SecondaryMonitor.get_digital_out(nb)` with `wait=False`: indexes
`self._dict["MasterBoardData"]["digitalOutputBits"]` without a presence check,
so a missing record raises `KeyError`; then masks with `1 << nb`. -/
def get_digital_out (d : PDict) (nb : Nat) : Except String Nat :=
  match alookup d "MasterBoardData" with
  | none => .error "KeyError"
  | some mbd =>
    match alookup mbd "digitalOutputBits" with
    | none => .error "KeyError"
    | some (.vint output) =>
      .ok (if Int.land output (2 ^ nb) ≠ 0 then 1 else 0)
    | some _ => .error "TypeError"

/-- `SecondaryMonitor.get_digital_in(nb)` with `wait=False`, symmetric to
`get_digital_out` on `digitalInputBits`. -/
def get_digital_in (d : PDict) (nb : Nat) : Except String Nat :=
  match alookup d "MasterBoardData" with
  | none => .error "KeyError"
  | some mbd =>
    match alookup mbd "digitalInputBits" with
    | none => .error "KeyError"
    | some (.vint output) =>
      .ok (if Int.land output (2 ^ nb) ≠ 0 then 1 else 0)
    | some _ => .error "TypeError"

/-- `SecondaryMonitor.get_analog_in(nb)` with `wait=False`: unchecked indexing
into `MasterBoardData`. -/
def get_analog_in (d : PDict) (nb : Nat) : Except String Value :=
  match alookup d "MasterBoardData" with
  | none => .error "KeyError"
  | some mbd =>
    match alookup mbd ("analogInput" ++ toString nb) with
    | none => .error "KeyError"
    | some v => .ok v

/-- `SecondaryMonitor.is_program_running` with `wait=False`: unchecked indexing
into `RobotModeData`. -/
def is_program_running (d : PDict) : Except String Value :=
  match alookup d "RobotModeData" with
  | none => .error "KeyError"
  | some rmd =>
    match alookup rmd "isProgramRunning" with
    | none => .error "KeyError"
    | some v => .ok v

/-- The command buffer built by `SecondaryMonitor.send_program`: the source
executes `prog.strip()` as a bare statement, discarding its result, so the
bytes appended to the queue are the original program followed by the `b"\n"`
terminator (byte 10). -/
def send_program_buffer (prog : List Nat) : List Nat := prog ++ [10]

/-- Spec-side helper: drop trailing ASCII whitespace, the normalisation the
spec claims `send_program` performs before appending the terminator. -/
def rstripWs (l : List Nat) : List Nat :=
  (l.reverse.dropWhile (fun b => b = 32 || b = 9 || b = 10 || b = 13 || b = 11 || b = 12)).reverse

/-- Spec-side model of the claimed `send_program` buffer: trailing whitespace
removed, then exactly one terminator byte. -/
def send_program_buffer_claimed (prog : List Nat) : List Nat := rstripWs prog ++ [10]

/-- Spec-side helper: the byte values of an ASCII command string. -/
def strBytes (s : String) : List Nat := s.data.map (fun c => c.toNat)

/-- Spec-side helper: big-endian 4-byte encoding of a packet size, used to
build concrete and symbolic test frames. -/
def be4 (n : Nat) : List Nat := [n / 16777216 % 256, n / 65536 % 256, n / 256 % 256, n % 256]

/-- Spec-side predicate: position `i` of the buffer starts a valid header
(at least five bytes remain, declared size in `[5, 2000]`, packet type 16). -/
def validHeaderAt (data : List Nat) (i : Nat) : Prop :=
  5 ≤ data.length - i ∧
    ¬((get_header (data.drop i)).1 < 5 ∨ 2000 < (get_header (data.drop i)).1 ∨
      (get_header (data.drop i)).2 ≠ 16)

instance (data : List Nat) (i : Nat) : Decidable (validHeaderAt data i) := by
  unfold validHeaderAt
  infer_instance

/-- Key presence in a batch dictionary (`name in allData`). -/
def hasKey (d : PDict) (k : String) : Bool := (alookup d k).isSome

/-- Loop invariant for the version gating of types 8 and 7: whenever the
parser version has reached (3, 2) during the current batch, or one of the
gated records is already present, the batch holds a `RobotModeData` record. -/
def parseInv (v : Version) (d : PDict) : Prop :=
  (verGe v (3, 2) = true → hasKey d "RobotModeData" = true) ∧
  ((hasKey d "AdditionalInfo" = true ∨ hasKey d "ForceModeData" = true) →
    hasKey d "RobotModeData" = true)

/-- Spec-side sample monitor state used by concrete counterexamples: a state
whose snapshot already holds a `RobotModeData` record. -/
def sampleMonState : MonState :=
  { dict := [("RobotModeData", [("robotMode", .vint 7)])]
    version := (3, 0)
    running := true
    lastpacket := 5 }

/-- Spec-side concrete frames: all-zero `RobotModeData` frames of the three
version-selecting declared sizes. -/
def rmdFrame38 : List Nat := be4 38 ++ 0 :: List.replicate 33 0

def rmdFrame46 : List Nat := be4 46 ++ 0 :: List.replicate 41 0

def rmdFrame47 : List Nat := be4 47 ++ 0 :: List.replicate 42 0

/-- Spec-side companion of `find_first_packet`: the least number of leading
bytes to drop so that a valid header (`5 <= size <= 2000`, type 16) starts the
buffer, if any position qualifies. -/
def firstValidIndex : List Nat → Option Nat
  | [] => none
  | b0 :: tl =>
    if 5 ≤ (b0 :: tl).length then
      if (get_header (b0 :: tl)).1 < 5 ∨ 2000 < (get_header (b0 :: tl)).1 ∨
          (get_header (b0 :: tl)).2 ≠ 16 then
        (firstValidIndex tl).map (· + 1)
      else some 0
    else none

/-! ### Association-list infrastructure -/

lemma alookup_ainsert_self {α : Type} (d : List (String × α)) (k : String) (v : α) :
    alookup (ainsert d k v) k = some v := by
  induction d with
  | nil => simp [ainsert, alookup]
  | cons kv t ih =>
    obtain ⟨k', v'⟩ := kv
    by_cases he : k' = k
    · simp [ainsert, alookup, he]
    · simp [ainsert, alookup, he, ih]

lemma alookup_ainsert_ne {α : Type} (d : List (String × α)) {k k' : String} (hne : k' ≠ k)
    (v : α) : alookup (ainsert d k v) k' = alookup d k' := by
  have hne2 : ¬ k = k' := fun h => hne (Eq.symm h)
  induction d with
  | nil => simp [ainsert, alookup, hne2]
  | cons kv t ih =>
    obtain ⟨k'', v''⟩ := kv
    rw [ainsert]
    by_cases he : k'' = k
    · subst he
      simp only [if_pos rfl]
      simp only [alookup]
      simp [hne2]
    · simp only [he, if_false]
      simp only [alookup, ih]

lemma ainsert_fresh {α : Type} {d : List (String × α)} {k : String}
    (hk : alookup d k = none) (v : α) : ainsert d k v = d ++ [(k, v)] := by
  induction d with
  | nil => rfl
  | cons kv t ih =>
    obtain ⟨k', v'⟩ := kv
    rw [alookup] at hk
    rw [ainsert]
    by_cases he : k' = k
    · simp [he] at hk
    · simp only [he, if_false] at hk ⊢
      rw [ih hk]
      simp

/-! ### Step lemmas for the `_get_data` loop -/

lemma getDataLoop_fmt_nil (names : List String) (tmpdata : List Nat) (d : PRec)
    (p : Option String) : getDataLoop [] names tmpdata d p = .ok d := rfl

lemma getDataLoop_names_nil (c : Char) (fr : List Char) (tmpdata : List Nat) (d : PRec)
    (p : Option String) : getDataLoop (c :: fr) [] tmpdata d p = .ok d := rfl

lemma getDataLoop_skip {c : Char} (hskip : skipChar c = true) (fr : List Char) (n : String)
    (nr : List String) (tmpdata : List Nat) (d : PRec) (p : Option String) :
    getDataLoop (c :: fr) (n :: nr) tmpdata d p = getDataLoop fr (n :: nr) tmpdata d p := by
  rw [getDataLoop.eq_def]
  simp only [hskip, if_true]

lemma getDataLoop_fixed {c : Char} (hskip : skipChar c = false) (hA : ¬ c = 'A') {sz : Nat}
    (hsz : calcsize c = some sz) (fr : List Char) (n : String) (nr : List String)
    {tmpdata : List Nat} (hlen : sz ≤ tmpdata.length) (d : PRec) (p : Option String) :
    getDataLoop (c :: fr) (n :: nr) tmpdata d p =
      getDataLoop fr nr (tmpdata.drop sz) (ainsert d n (unpackOne c (tmpdata.take sz)))
        (some n) := by
  rw [getDataLoop.eq_def]
  simp only [hskip, hsz, hA, Nat.not_lt.2 hlen, if_false, if_true, Bool.false_eq_true]

lemma getDataLoop_arr_last {fr : List Char} (hfr : fr.length = 1) (n : String)
    (nr : List String) (tmpdata : List Nat) (d : PRec) (p : Option String) :
    getDataLoop ('A' :: fr) (n :: nr) tmpdata d p = .ok (ainsert d n (.vbytes tmpdata)) := by
  rw [getDataLoop.eq_def]
  simp only [skipChar, hfr, Char.reduceEq, Bool.or_self, Bool.or_false, Bool.false_or,
    if_false, if_true, Bool.false_eq_true, eq_self_iff_true, decide_False, decide_True]

lemma getDataLoop_arr_sized {c2 : Char} {fr2 : List Char} (hfr : ¬ (c2 :: fr2).length = 1)
    {asn : String} (hSize : pyEndsWith asn "Size" = true) {d : PRec} {sz : Int}
    (hlook : alookup d asn = some (.vint sz)) (n : String) (nr : List String)
    (tmpdata : List Nat) :
    getDataLoop ('A' :: c2 :: fr2) (n :: nr) tmpdata d (some asn) =
      getDataLoop fr2 nr (tmpdata.drop (pyIdx tmpdata.length sz))
        (ainsert d n (.vbytes (tmpdata.take (pyIdx tmpdata.length sz)))) (some n) := by
  rw [getDataLoop.eq_def]
  simp only [skipChar, hfr, hSize, hlook, Char.reduceEq, Bool.or_self, Bool.or_false,
    Bool.false_or, if_false, if_true, Bool.false_eq_true, eq_self_iff_true, decide_False,
    decide_True]

lemma pyIdx_natCast (len m : Nat) : pyIdx len ((m : Nat) : Int) = m := by
  simp [pyIdx]

/-! ### Byte-encoding arithmetic -/

lemma bytesToNat_be4 {n : Nat} (h : n < 4294967296) : bytesToNat (be4 n) = n := by
  simp only [bytesToNat, be4, List.foldl]
  omega

lemma toSigned32_small {n : Nat} (h : n < 2147483648) : toSigned 32 n = (n : Int) := by
  simp only [toSigned]
  norm_num
  omega

lemma be4_length (n : Nat) : (be4 n).length = 4 := by simp [be4]

/-- Header decode of a frame built as `be4 s ++ t :: payload` with a small
declared size and a small type byte. -/
lemma get_header_mk (s t : Nat) (payload : List Nat) (hs : s < 2147483648) (ht : t < 256) :
    get_header (be4 s ++ t :: payload) = ((s : Int), t) := by
  rw [get_header]
  have h4 : (be4 s ++ t :: payload).take 4 = be4 s := by
    rw [show (4 : Nat) = (be4 s).length from (be4_length s).symm]
    exact List.take_left _ _
  have h5 : (be4 s ++ t :: payload).drop 4 = t :: payload := by
    rw [show (4 : Nat) = (be4 s).length from (be4_length s).symm]
    exact List.drop_left _ _
  rw [h4, h5, bytesToNat_be4 (by omega), toSigned32_small hs]
  simp [Nat.mod_eq_of_lt ht]

/-- `analyze_header` on a frame whose declared size equals its length. -/
lemma analyze_header_mk {s t : Nat} {payload : List Nat} (hlen : payload.length + 5 = s)
    (hs : s ≤ 2147483647) (ht : t < 256) :
    analyze_header (be4 s ++ t :: payload) =
      .ok ((s : Int), t, be4 s ++ t :: payload, []) := by
  have hh := get_header_mk s t payload (by omega) ht
  have hl : (be4 s ++ t :: payload).length = s := by
    simp [be4_length]
    omega
  rw [analyze_header, hh, hl]
  have h1 : ¬ (s < 5) := by omega
  have h2 : ¬ ((s : Int) < 5) := by exact_mod_cast h1
  have h3 : ¬ ((s : Nat) : Int) < (s : Int) := by omega
  simp only [h1, h2, h3, if_false]
  have h4 : ((s : Int)).toNat = s := by omega
  rw [h4]
  have h5 : (be4 s ++ t :: payload).take s = be4 s ++ t :: payload :=
    List.take_of_length_le (by omega)
  have h6 : (be4 s ++ t :: payload).drop s = [] :=
    List.drop_eq_nil_of_le (by omega)
  rw [h5, h6]

/-! ### Step lemmas for the parse loop -/

lemma analyze_header_ne_nil {data : List Nat} {ps : Int} {pt : Nat} {pd rest : List Nat}
    (h : analyze_header data = .ok (ps, pt, pd, rest)) : data ≠ [] := by
  intro e
  subst e
  have := (analyze_header_len h).1
  simp at this

lemma parseLoop_nil (v : Version) (d : PDict) : parseLoop v d [] = (v, .ok d) := by
  rw [parseLoop]
  rfl

lemma parseLoop_analyze_err {data : List Nat} {e : String}
    (h : analyze_header data = .error e) (hnd : data ≠ []) (v : Version) (a : PDict) :
    parseLoop v a data = (v, .error e) := by
  rw [parseLoop]
  simp only [List.isEmpty_iff, hnd, if_false]
  split
  · rename_i e' heq
    rw [h] at heq
    cases heq
    rfl
  · rename_i ps' pt' pd' rest' heq
    rw [h] at heq
    cases heq

lemma parseLoop_16 {data : List Nat} {ps : Int} {pd rest : List Nat} {r : PRec}
    (h : analyze_header data = .ok (ps, 16, pd, rest))
    (hr : get_data pd "!iB" ["size", "type"] = .ok r) (v : Version) (a : PDict) :
    parseLoop v a data =
      parseLoop v (ainsert a "SecondaryClientData" r) ((pd ++ rest).drop 5) := by
  rw [parseLoop]
  simp only [List.isEmpty_iff, analyze_header_ne_nil h, if_false]
  split
  · rename_i e heq
    rw [h] at heq
    cases heq
  · rename_i ps' pt' pd' rest' heq
    rw [h] at heq
    simp only [Except.ok.injEq, Prod.mk.injEq] at heq
    obtain ⟨e1, e2, e3, e4⟩ := heq
    subst e1 e2 e3 e4
    simp only [eq_self_iff_true, if_true, hr]

lemma parseLoop_rmd38 {data : List Nat} {pd rest : List Nat} {r : PRec}
    (h : analyze_header data = .ok (38, 0, pd, rest))
    (hr : get_data pd "!IBQ???????BBdd" rmdNames30 = .ok r) (v : Version) (a : PDict) :
    parseLoop v a data = parseLoop (3, 0) (ainsert a "RobotModeData" r) rest := by
  rw [parseLoop]
  simp only [List.isEmpty_iff, analyze_header_ne_nil h, if_false]
  split
  · rename_i e heq
    rw [h] at heq
    cases heq
  · rename_i ps' pt' pd' rest' heq
    rw [h] at heq
    simp only [Except.ok.injEq, Prod.mk.injEq] at heq
    obtain ⟨e1, e2, e3, e4⟩ := heq
    subst e1 e2 e3 e4
    simp only [eq_self_iff_true, if_true, Nat.reduceEqDiff, if_false, hr]

lemma parseLoop_rmd46 {data : List Nat} {pd rest : List Nat} {r : PRec}
    (h : analyze_header data = .ok (46, 0, pd, rest))
    (hr : get_data pd "!IBQ???????BBdd" rmdNames32 = .ok r) (v : Version) (a : PDict) :
    parseLoop v a data = parseLoop (3, 2) (ainsert a "RobotModeData" r) rest := by
  rw [parseLoop]
  simp only [List.isEmpty_iff, analyze_header_ne_nil h, if_false]
  split
  · rename_i e heq
    rw [h] at heq
    cases heq
  · rename_i ps' pt' pd' rest' heq
    rw [h] at heq
    simp only [Except.ok.injEq, Prod.mk.injEq] at heq
    obtain ⟨e1, e2, e3, e4⟩ := heq
    subst e1 e2 e3 e4
    simp only [eq_self_iff_true, if_true, Nat.reduceEqDiff, Int.reduceEq, if_false, hr]

lemma parseLoop_rmd47 {data : List Nat} {pd rest : List Nat} {r : PRec}
    (h : analyze_header data = .ok (47, 0, pd, rest))
    (hr : get_data pd "!IBQ???????BBddc" rmdNames35 = .ok r) (v : Version) (a : PDict) :
    parseLoop v a data = parseLoop (3, 5) (ainsert a "RobotModeData" r) rest := by
  rw [parseLoop]
  simp only [List.isEmpty_iff, analyze_header_ne_nil h, if_false]
  split
  · rename_i e heq
    rw [h] at heq
    cases heq
  · rename_i ps' pt' pd' rest' heq
    rw [h] at heq
    simp only [Except.ok.injEq, Prod.mk.injEq] at heq
    obtain ⟨e1, e2, e3, e4⟩ := heq
    subst e1 e2 e3 e4
    simp only [eq_self_iff_true, if_true, Nat.reduceEqDiff, Int.reduceEq, if_false, hr]

lemma parseLoop_rmdLegacy {data : List Nat} {ps : Int} {pd rest : List Nat} {r : PRec}
    (h : analyze_header data = .ok (ps, 0, pd, rest))
    (h38 : ¬ ps = 38) (h46 : ¬ ps = 46) (h47 : ¬ ps = 47)
    (hr : get_data pd "!iBQ???????Bd" rmdNamesLegacy = .ok r) (v : Version) (a : PDict) :
    parseLoop v a data = parseLoop v (ainsert a "RobotModeData" r) rest := by
  rw [parseLoop]
  simp only [List.isEmpty_iff, analyze_header_ne_nil h, if_false]
  split
  · rename_i e heq
    rw [h] at heq
    cases heq
  · rename_i ps' pt' pd' rest' heq
    rw [h] at heq
    simp only [Except.ok.injEq, Prod.mk.injEq] at heq
    obtain ⟨e1, e2, e3, e4⟩ := heq
    subst e1 e2 e3 e4
    simp only [eq_self_iff_true, if_true, Nat.reduceEqDiff, if_false, h38, h46, h47, hr]

lemma parseLoop_rmdLegacy_err {data : List Nat} {ps : Int} {pd rest : List Nat} {e : String}
    (h : analyze_header data = .ok (ps, 0, pd, rest))
    (h38 : ¬ ps = 38) (h46 : ¬ ps = 46) (h47 : ¬ ps = 47)
    (hr : get_data pd "!iBQ???????Bd" rmdNamesLegacy = .error e) (v : Version) (a : PDict) :
    parseLoop v a data = (v, .error e) := by
  rw [parseLoop]
  simp only [List.isEmpty_iff, analyze_header_ne_nil h, if_false]
  split
  · rename_i e' heq
    rw [h] at heq
    cases heq
  · rename_i ps' pt' pd' rest' heq
    rw [h] at heq
    simp only [Except.ok.injEq, Prod.mk.injEq] at heq
    obtain ⟨e1, e2, e3, e4⟩ := heq
    subst e1 e2 e3 e4
    simp only [eq_self_iff_true, if_true, Nat.reduceEqDiff, if_false, h38, h46, h47, hr]

lemma parseLoop_type8_low {data : List Nat} {ps : Int} {pd rest : List Nat}
    (h : analyze_header data = .ok (ps, 8, pd, rest)) {v : Version}
    (hv : verGe v (3, 2) = false) (a : PDict) :
    parseLoop v a data = parseLoop v a rest := by
  rw [parseLoop]
  simp only [List.isEmpty_iff, analyze_header_ne_nil h, if_false]
  split
  · rename_i e heq
    rw [h] at heq
    cases heq
  · rename_i ps' pt' pd' rest' heq
    rw [h] at heq
    simp only [Except.ok.injEq, Prod.mk.injEq] at heq
    obtain ⟨e1, e2, e3, e4⟩ := heq
    subst e1 e2 e3 e4
    simp only [Nat.reduceEqDiff, if_false, hv, Bool.false_eq_true, and_false, and_true,
      eq_self_iff_true, if_true]

lemma parseLoop_type7_low {data : List Nat} {ps : Int} {pd rest : List Nat}
    (h : analyze_header data = .ok (ps, 7, pd, rest)) {v : Version}
    (hv : verGe v (3, 2) = false) (a : PDict) :
    parseLoop v a data = parseLoop v a rest := by
  rw [parseLoop]
  simp only [List.isEmpty_iff, analyze_header_ne_nil h, if_false]
  split
  · rename_i e heq
    rw [h] at heq
    cases heq
  · rename_i ps' pt' pd' rest' heq
    rw [h] at heq
    simp only [Except.ok.injEq, Prod.mk.injEq] at heq
    obtain ⟨e1, e2, e3, e4⟩ := heq
    subst e1 e2 e3 e4
    simp only [Nat.reduceEqDiff, if_false, hv, Bool.false_eq_true, and_false, and_true,
      eq_self_iff_true, if_true]

lemma parseLoop_popup {data : List Nat} {ps : Int} {pd rest : List Nat} {tmp r : PRec}
    (h : analyze_header data = .ok (ps, 20, pd, rest))
    (htmp : get_data pd "!iB Qbb"
      ["size", "type", "timestamp", "source", "robotMessageType"] = .ok tmp)
    (hmt : alookup tmp "robotMessageType" = some (.vint 2))
    (hr : get_data pd "!iBQbb ??BAcAc"
      ["size", "type", "timestamp", "source", "robotMessageType", "warning", "error",
       "titleSize", "messageTitle", "messageText"] = .ok r) (v : Version) (a : PDict) :
    parseLoop v a data = parseLoop v (ainsert a "popupMessage" r) rest := by
  rw [parseLoop]
  simp only [List.isEmpty_iff, analyze_header_ne_nil h, if_false]
  split
  · rename_i e heq
    rw [h] at heq
    cases heq
  · rename_i ps' pt' pd' rest' heq
    rw [h] at heq
    simp only [Except.ok.injEq, Prod.mk.injEq] at heq
    obtain ⟨e1, e2, e3, e4⟩ := heq
    subst e1 e2 e3 e4
    simp only [Nat.reduceEqDiff, if_false, Bool.false_eq_true, and_false, and_true, false_and,
      eq_self_iff_true, if_true, htmp, hmt, Option.some.injEq, Value.vint.injEq, Int.reduceEq,
      hr]

lemma parseLoop_type8_ok {data : List Nat} {ps : Int} {pd rest : List Nat} {r : PRec}
    (h : analyze_header data = .ok (ps, 8, pd, rest)) {v : Version}
    (hv : verGe v (3, 2) = true)
    (hr : get_data pd "iB??" ["size", "type", "teachButtonPressed", "teachButtonEnabled"] =
      .ok r) (a : PDict) :
    parseLoop v a data = parseLoop v (ainsert a "AdditionalInfo" r) rest := by
  rw [parseLoop]
  simp only [List.isEmpty_iff, analyze_header_ne_nil h, if_false]
  split
  · rename_i e heq
    rw [h] at heq
    cases heq
  · rename_i ps' pt' pd' rest' heq
    rw [h] at heq
    simp only [Except.ok.injEq, Prod.mk.injEq] at heq
    obtain ⟨e1, e2, e3, e4⟩ := heq
    subst e1 e2 e3 e4
    simp only [Nat.reduceEqDiff, if_false, hv, Bool.false_eq_true, and_false, and_true,
      eq_self_iff_true, if_true, hr]

/-! ### Symbolic decodes of the fixed-layout formats -/

lemma le_add_left_of_le {a b n : Nat} (h : a ≤ b) : a ≤ n + b := by omega

lemma not_add_lt_of_le {a b n : Nat} (h : b ≤ a) : ¬ (n + a < b) := by omega

lemma toSigned_small {w n : Nat} (h : n < 2 ^ (w - 1)) : toSigned w n = (n : Int) := by
  simp [toSigned, h]

lemma get_data_rmd30_ok (b3 b2 b1 b0 t : Nat) {payload : List Nat}
    (h : payload.length = 33) :
    ∃ r, get_data (b3 :: b2 :: b1 :: b0 :: t :: payload) "!IBQ???????BBdd" rmdNames30 =
      .ok r := by
  have hp : pstrip "!IBQ???????BBdd".data =
      ['!', 'I', 'B', 'Q', '?', '?', '?', '?', '?', '?', '?', 'B', 'B', 'd', 'd'] := by decide
  rw [get_data, hp, rmdNames30]
  simp only [getDataLoop_skip, getDataLoop_fixed, getDataLoop_fmt_nil, getDataLoop_names_nil,
    skipChar, calcsize, unpackOne, Char.reduceEq, Bool.or_self, Bool.or_false, Bool.false_or,
    Bool.true_or, Bool.or_true, decide_False, decide_True, Option.isSome_some, Option.getD_some,
    ne_eq, not_false_eq_true, List.length_drop, List.length_cons, h, List.drop_drop,
    Nat.reduceAdd, Nat.reduceSub, Nat.reduceLeDiff, ainsert_fresh, alookup,
    List.cons_append, List.nil_append, reduceCtorEq, if_false, if_true,
    Option.some.injEq, Bool.false_eq_true, List.append_assoc]
  exact ⟨_, rfl⟩

lemma get_data_rmd32_ok (b3 b2 b1 b0 t : Nat) {payload : List Nat}
    (h : payload.length = 41) :
    ∃ r, get_data (b3 :: b2 :: b1 :: b0 :: t :: payload) "!IBQ???????BBdd" rmdNames32 =
      .ok r := by
  have hp : pstrip "!IBQ???????BBdd".data =
      ['!', 'I', 'B', 'Q', '?', '?', '?', '?', '?', '?', '?', 'B', 'B', 'd', 'd'] := by decide
  rw [get_data, hp, rmdNames32, rmdNames30]
  simp only [getDataLoop_skip, getDataLoop_fixed, getDataLoop_fmt_nil, getDataLoop_names_nil,
    skipChar, calcsize, unpackOne, Char.reduceEq, Bool.or_self, Bool.or_false, Bool.false_or,
    Bool.true_or, Bool.or_true, decide_False, decide_True, Option.isSome_some, Option.getD_some,
    ne_eq, not_false_eq_true, List.length_drop, List.length_cons, h, List.drop_drop,
    Nat.reduceAdd, Nat.reduceSub, Nat.reduceLeDiff, ainsert_fresh, alookup,
    List.cons_append, List.nil_append, reduceCtorEq, if_false, if_true,
    Option.some.injEq, Bool.false_eq_true, List.append_assoc, String.reduceEq]
  exact ⟨_, rfl⟩

lemma get_data_rmd35_ok (b3 b2 b1 b0 t : Nat) {payload : List Nat}
    (h : payload.length = 42) :
    ∃ r, get_data (b3 :: b2 :: b1 :: b0 :: t :: payload) "!IBQ???????BBddc" rmdNames35 =
      .ok r := by
  have hp : pstrip "!IBQ???????BBddc".data =
      ['!', 'I', 'B', 'Q', '?', '?', '?', '?', '?', '?', '?', 'B', 'B', 'd', 'd', 'c'] := by
    decide
  rw [get_data, hp, rmdNames35, rmdNames32, rmdNames30]
  simp only [getDataLoop_skip, getDataLoop_fixed, getDataLoop_fmt_nil, getDataLoop_names_nil,
    skipChar, calcsize, unpackOne, Char.reduceEq, Bool.or_self, Bool.or_false, Bool.false_or,
    Bool.true_or, Bool.or_true, decide_False, decide_True, Option.isSome_some, Option.getD_some,
    ne_eq, not_false_eq_true, List.length_drop, List.length_cons, h, List.drop_drop,
    Nat.reduceAdd, Nat.reduceSub, Nat.reduceLeDiff, ainsert_fresh, alookup,
    List.cons_append, List.nil_append, reduceCtorEq, if_false, if_true,
    Option.some.injEq, Bool.false_eq_true, List.append_assoc, String.reduceEq]
  exact ⟨_, rfl⟩

lemma pyEndsWith_titleSize : pyEndsWith "titleSize" "Size" = true := by decide

lemma get_data_popup_tmp_ok (b3 b2 b1 b0 pt ts0 ts1 ts2 ts3 ts4 ts5 ts6 ts7 src m : Nat)
    (rest : List Nat) (hm : m < 128) :
    ∃ tmp, get_data (b3 :: b2 :: b1 :: b0 :: pt :: ts0 :: ts1 :: ts2 :: ts3 :: ts4 :: ts5 ::
        ts6 :: ts7 :: src :: m :: rest) "!iB Qbb"
        ["size", "type", "timestamp", "source", "robotMessageType"] = .ok tmp ∧
      alookup tmp "robotMessageType" = some (.vint m) := by
  have hp : pstrip "!iB Qbb".data = ['!', 'i', 'B', ' ', 'Q', 'b', 'b'] := by decide
  have hm1 : m % 256 = m := Nat.mod_eq_of_lt (by omega)
  have hm2 : toSigned 8 m = (m : Int) := toSigned_small (by norm_num; omega)
  rw [get_data, hp]
  simp only [getDataLoop_skip, getDataLoop_fixed, getDataLoop_fmt_nil, getDataLoop_names_nil,
    skipChar, calcsize, unpackOne, Char.reduceEq, Bool.or_self, Bool.or_false, Bool.false_or,
    Bool.true_or, Bool.or_true, decide_False, decide_True, Option.isSome_some, Option.getD_some,
    ne_eq, not_false_eq_true, List.length_drop, List.length_cons, List.drop_drop,
    Nat.reduceAdd, Nat.reduceSub, Nat.reduceLeDiff, ainsert_fresh, alookup,
    List.cons_append, List.nil_append, reduceCtorEq, if_false, if_true,
    Option.some.injEq, Bool.false_eq_true, List.append_assoc, String.reduceEq,
    le_add_left_of_le, not_add_lt_of_le, List.drop_succ_cons, List.take_succ_cons,
    List.take_zero, List.drop_zero, bytesToNat, List.foldl, Nat.zero_mul, Nat.zero_add,
    hm1, hm2]
  exact ⟨_, rfl, rfl⟩

lemma get_data_popup_full_ok (b3 b2 b1 b0 pt ts0 ts1 ts2 ts3 ts4 ts5 ts6 ts7 src mt w e : Nat)
    (title text : List Nat) (htl : title.length ≤ 255) (hw : w < 256) (he : e < 256) :
    ∃ r, get_data (b3 :: b2 :: b1 :: b0 :: pt :: ts0 :: ts1 :: ts2 :: ts3 :: ts4 :: ts5 ::
        ts6 :: ts7 :: src :: mt :: w :: e :: title.length :: (title ++ text)) "!iBQbb ??BAcAc"
        ["size", "type", "timestamp", "source", "robotMessageType", "warning", "error",
         "titleSize", "messageTitle", "messageText"] = .ok r ∧
      alookup r "warning" = some (.vbool (w != 0)) ∧
      alookup r "error" = some (.vbool (e != 0)) ∧
      alookup r "titleSize" = some (.vint (title.length : Int)) ∧
      alookup r "messageTitle" = some (.vbytes title) ∧
      alookup r "messageText" = some (.vbytes text) := by
  have hp : pstrip "!iBQbb ??BAcAc".data =
      ['!', 'i', 'B', 'Q', 'b', 'b', ' ', '?', '?', 'B', 'A', 'c', 'A', 'c'] := by decide
  have hw1 : w % 256 = w := Nat.mod_eq_of_lt (by omega)
  have he1 : e % 256 = e := Nat.mod_eq_of_lt (by omega)
  have htl1 : title.length % 256 = title.length := Nat.mod_eq_of_lt (by omega)
  rw [get_data, hp]
  simp only [getDataLoop_skip, getDataLoop_fixed, getDataLoop_arr_sized, getDataLoop_arr_last,
    getDataLoop_fmt_nil, getDataLoop_names_nil,
    skipChar, calcsize, unpackOne, Char.reduceEq, Bool.or_self, Bool.or_false, Bool.false_or,
    Bool.true_or, Bool.or_true, decide_False, decide_True, Option.isSome_some, Option.getD_some,
    ne_eq, not_false_eq_true, List.length_drop, List.length_cons, List.drop_drop,
    Nat.reduceAdd, Nat.reduceSub, Nat.reduceLeDiff, Nat.reduceEqDiff, ainsert_fresh, alookup,
    List.cons_append, List.nil_append, reduceCtorEq, if_false, if_true,
    Option.some.injEq, Bool.false_eq_true, List.append_assoc, String.reduceEq,
    le_add_left_of_le, not_add_lt_of_le, List.drop_succ_cons, List.take_succ_cons,
    List.take_zero, List.drop_zero, bytesToNat, List.foldl, Nat.zero_mul, Nat.zero_add,
    hw1, he1, htl1, pyEndsWith_titleSize, pyIdx_natCast, List.take_left, List.drop_left,
    Value.vint.injEq, Value.vbool.injEq, Value.vbytes.injEq]
  exact ⟨_, rfl, rfl, rfl, rfl, rfl, rfl⟩

/-! ### Bit-test arithmetic for the digital I/O getters -/

lemma nat_and_two_pow_ne_zero_iff (m nb : Nat) : m &&& 2 ^ nb ≠ 0 ↔ m.testBit nb = true := by
  constructor
  · intro hne
    obtain ⟨i, hi⟩ := Nat.ne_zero_implies_bit_true hne
    rw [Nat.testBit_and, Nat.testBit_two_pow] at hi
    simp only [Bool.and_eq_true, decide_eq_true_eq] at hi
    obtain ⟨h1, h2⟩ := hi
    subst h2
    exact h1
  · intro hb hz
    have : (m &&& 2 ^ nb).testBit nb = false := by
      rw [hz]
      exact Nat.zero_testBit nb
    rw [Nat.testBit_and, Nat.testBit_two_pow] at this
    simp [hb] at this

lemma nat_ldiff_two_pow_ne_zero_iff (m nb : Nat) :
    Nat.ldiff (2 ^ nb) m ≠ 0 ↔ m.testBit nb = false := by
  constructor
  · intro hne
    obtain ⟨i, hi⟩ := Nat.ne_zero_implies_bit_true hne
    rw [Nat.testBit_ldiff, Nat.testBit_two_pow] at hi
    simp only [Bool.and_eq_true, Bool.not_eq_true', decide_eq_true_eq] at hi
    obtain ⟨h1, h2⟩ := hi
    subst h1
    exact h2
  · intro hb hz
    have : (Nat.ldiff (2 ^ nb) m).testBit nb = false := by
      rw [hz]
      exact Nat.zero_testBit nb
    rw [Nat.testBit_ldiff, Nat.testBit_two_pow] at this
    simp [hb] at this

/-- The source masks with `output & (1 << nb)`; that value is nonzero exactly
when bit `nb` of `output` is set, in the infinite two's-complement sense that
Python uses for negative ints. -/
lemma land_two_pow_ne_zero_iff (output : Int) (nb : Nat) :
    Int.land output (2 ^ nb) ≠ 0 ↔ output.testBit nb = true := by
  have hcast : ((2 : Int) ^ nb) = ((2 ^ nb : Nat) : Int) := by push_cast; ring
  cases output with
  | ofNat m =>
    rw [hcast]
    show Int.land (Int.ofNat m) (Int.ofNat (2 ^ nb)) ≠ 0 ↔ _
    have hland : Int.land (Int.ofNat m) (Int.ofNat (2 ^ nb)) = Int.ofNat (m &&& 2 ^ nb) := rfl
    rw [hland]
    simp only [Int.testBit]
    rw [show Int.ofNat (m &&& 2 ^ nb) = ((m &&& 2 ^ nb : Nat) : Int) from rfl]
    rw [Int.natCast_ne_zero]
    exact nat_and_two_pow_ne_zero_iff m nb
  | negSucc m =>
    rw [hcast]
    have hland : Int.land (Int.negSucc m) (Int.ofNat (2 ^ nb)) =
        Int.ofNat (Nat.ldiff (2 ^ nb) m) := rfl
    rw [show ((2 ^ nb : Nat) : Int) = Int.ofNat (2 ^ nb) from rfl, hland]
    simp only [Int.testBit]
    rw [show Int.ofNat (Nat.ldiff (2 ^ nb) m) = ((Nat.ldiff (2 ^ nb) m : Nat) : Int) from rfl]
    rw [Int.natCast_ne_zero]
    rw [nat_ldiff_two_pow_ne_zero_iff m nb]
    cases m.testBit nb <;> simp

/-! ### Characterisation of the frame scanner -/

lemma validHeaderAt_succ (b0 : Nat) (tl : List Nat) (j : Nat) :
    validHeaderAt (b0 :: tl) (j + 1) ↔ validHeaderAt tl j := by
  unfold validHeaderAt
  rw [List.drop_succ_cons]
  simp only [List.length_cons]
  constructor
  · rintro ⟨h1, h2⟩
    exact ⟨by omega, h2⟩
  · rintro ⟨h1, h2⟩
    exact ⟨by omega, h2⟩

/-- The scanner agrees with the least-valid-position description: it fails on
a buffer with no valid position, and at the first valid position returns the
declared-size split when the buffer is long enough, `none` (incomplete)
otherwise. -/
lemma find_first_packet_eq_spec (data : List Nat) :
    find_first_packet data =
      match firstValidIndex data with
      | none => none
      | some i =>
        if (get_header (data.drop i)).1 ≤ ((data.drop i).length : Int) then
          some ((data.drop i).take (get_header (data.drop i)).1.toNat,
            (data.drop i).drop (get_header (data.drop i)).1.toNat)
        else none := by
  induction data using find_first_packet.induct with
  | case1 =>
    rw [find_first_packet, firstValidIndex]
  | case2 b0 tl hlen hbad ih =>
    rw [find_first_packet, firstValidIndex]
    simp only [hlen, if_true, hbad, if_true, ih]
    cases h : firstValidIndex tl with
    | none => rfl
    | some i =>
      simp only [Option.map_some', List.drop_succ_cons]
  | case3 b0 tl hlen hbad hcomplete =>
    rw [find_first_packet, firstValidIndex]
    simp only [hlen, if_true, hbad, if_false, hcomplete, if_true, List.drop_zero]
  | case4 b0 tl hlen hbad hcomplete =>
    rw [find_first_packet, firstValidIndex]
    simp only [hlen, if_true, hbad, if_false, hcomplete, if_false, List.drop_zero]
  | case5 b0 tl hlen =>
    rw [find_first_packet, firstValidIndex]
    simp only [hlen, if_false]

/-- `firstValidIndex` really is the least valid position. -/
lemma firstValidIndex_least (data : List Nat) :
    (∀ i, firstValidIndex data = some i →
      validHeaderAt data i ∧ ∀ j, j < i → ¬ validHeaderAt data j) ∧
    (firstValidIndex data = none → ∀ j, ¬ validHeaderAt data j) := by
  induction data with
  | nil =>
    constructor
    · intro i hi
      rw [firstValidIndex] at hi
      cases hi
    · intro _ j
      unfold validHeaderAt
      simp
  | cons b0 tl ih =>
    by_cases hlen : 5 ≤ (b0 :: tl).length
    · by_cases hbad : (get_header (b0 :: tl)).1 < 5 ∨ 2000 < (get_header (b0 :: tl)).1 ∨
          (get_header (b0 :: tl)).2 ≠ 16
      · have hstep : firstValidIndex (b0 :: tl) = (firstValidIndex tl).map (· + 1) := by
          rw [firstValidIndex]
          simp only [hlen, if_true, hbad, if_true]
        have hnot0 : ¬ validHeaderAt (b0 :: tl) 0 := by
          unfold validHeaderAt
          simp only [List.drop_zero]
          intro hc
          exact hc.2 hbad
        constructor
        · intro i hi
          rw [hstep] at hi
          cases htl : firstValidIndex tl with
          | none => rw [htl] at hi; cases hi
          | some i' =>
            rw [htl] at hi
            simp only [Option.map_some', Option.some.injEq] at hi
            subst hi
            obtain ⟨hv, hleast⟩ := ih.1 i' htl
            refine ⟨(validHeaderAt_succ b0 tl i').2 hv, ?_⟩
            intro j hj
            cases j with
            | zero => exact hnot0
            | succ j' =>
              rw [validHeaderAt_succ]
              exact hleast j' (by omega)
        · intro hn j
          rw [hstep] at hn
          cases htl : firstValidIndex tl with
          | some i' => rw [htl] at hn; cases hn
          | none =>
            cases j with
            | zero => exact hnot0
            | succ j' =>
              rw [validHeaderAt_succ]
              exact ih.2 htl j'
      · have hstep : firstValidIndex (b0 :: tl) = some 0 := by
          rw [firstValidIndex]
          simp only [hlen, if_true, hbad, if_false]
        constructor
        · intro i hi
          rw [hstep] at hi
          cases hi
          refine ⟨⟨by omega, by simpa using hbad⟩, ?_⟩
          intro j hj
          omega
        · intro hn
          rw [hstep] at hn
          cases hn
    · have hstep : firstValidIndex (b0 :: tl) = none := by
        rw [firstValidIndex]
        simp only [hlen, if_false]
      constructor
      · intro i hi
        rw [hstep] at hi
        cases hi
      · intro _ j
        unfold validHeaderAt
        intro hc
        have h1 := hc.1
        simp only [List.length_cons] at hlen h1
        omega

/-! ### Version gating of AdditionalInfo / ForceModeData records -/

lemma hasKey_ainsert_self (d : PDict) (k : String) (r : PRec) :
    hasKey (ainsert d k r) k = true := by
  simp [hasKey, alookup_ainsert_self]

lemma hasKey_ainsert_other {k k' : String} (h : k' ≠ k) (d : PDict) (r : PRec) :
    hasKey (ainsert d k r) k' = hasKey d k' := by
  simp [hasKey, alookup_ainsert_ne d h]

lemma parseInv_rmd (v : Version) (a : PDict) (r : PRec) :
    parseInv v (ainsert a "RobotModeData" r) := by
  refine ⟨fun _ => hasKey_ainsert_self a _ r, fun _ => hasKey_ainsert_self a _ r⟩

lemma parseInv_keep {k : String} (h1 : k ≠ "RobotModeData") (h2 : k ≠ "AdditionalInfo")
    (h3 : k ≠ "ForceModeData") {v : Version} {a : PDict} (hinv : parseInv v a) (r : PRec) :
    parseInv v (ainsert a k r) := by
  obtain ⟨i1, i2⟩ := hinv
  constructor
  · intro hv
    rw [hasKey_ainsert_other (Ne.symm h1)]
    exact i1 hv
  · intro hor
    rw [hasKey_ainsert_other (Ne.symm h1)]
    rw [hasKey_ainsert_other (Ne.symm h2), hasKey_ainsert_other (Ne.symm h3)] at hor
    exact i2 hor

lemma parseInv_gated {k : String} (h1 : k ≠ "RobotModeData") {v : Version} {a : PDict}
    (hrmd : hasKey a "RobotModeData" = true) (r : PRec) :
    parseInv v (ainsert a k r) := by
  constructor
  · intro _
    rw [hasKey_ainsert_other (Ne.symm h1)]
    exact hrmd
  · intro _
    rw [hasKey_ainsert_other (Ne.symm h1)]
    exact hrmd

/-- The invariant `parseInv` is preserved by a complete run of the parse
loop. -/
lemma parseLoop_inv_aux : ∀ (N : Nat) (data : List Nat), data.length ≤ N →
    ∀ (v : Version) (a : PDict) (v' : Version) (d' : PDict),
    parseLoop v a data = (v', .ok d') → parseInv v a → parseInv v' d' := by
  intro N
  induction N with
  | zero =>
    intro data hlen v a v' d' heq hinv
    have hd : data = [] := by
      cases data with
      | nil => rfl
      | cons x tl => simp at hlen
    subst hd
    rw [parseLoop_nil] at heq
    simp only [Prod.mk.injEq, Except.ok.injEq] at heq
    obtain ⟨h1, h2⟩ := heq
    subst h1 h2
    exact hinv
  | succ N ih =>
    intro data hlen v a v' d' heq hinv
    by_cases hemp : data.isEmpty = true
    · have hd : data = [] := List.isEmpty_iff.1 hemp
      subst hd
      rw [parseLoop_nil] at heq
      simp only [Prod.mk.injEq, Except.ok.injEq] at heq
      obtain ⟨h1, h2⟩ := heq
      subst h1 h2
      exact hinv
    · rw [parseLoop] at heq
      rw [if_neg hemp] at heq
      split at heq
      · exact absurd heq (by simp)
      · rename_i ps pt pd rest hah
        have hlt := (analyze_header_len hah).2.1
        have hrest : rest.length ≤ N := by omega
        have hcat : ((pd ++ rest).drop 5).length ≤ N := by
          have h3 := congrArg List.length (analyze_header_len hah).2.2.2
          simp only [List.length_append] at h3
          have h0 := (analyze_header_len hah).1
          simp only [List.length_drop, List.length_append]
          omega
        by_cases h16 : pt = 16
        · rw [if_pos h16] at heq
          cases hg : get_data pd "!iB" ["size", "type"] with
          | error e =>
            rw [hg] at heq
            exact absurd heq (by simp)
          | ok r =>
            rw [hg] at heq
            exact ih _ hcat _ _ _ _ heq
              (parseInv_keep (by decide) (by decide) (by decide) hinv _)
        · rw [if_neg h16] at heq
          by_cases h0 : pt = 0
          · rw [if_pos h0] at heq
            by_cases h38 : ps = 38
            · rw [if_pos h38] at heq
              cases hg : get_data pd "!IBQ???????BBdd" rmdNames30 with
              | error e =>
                rw [hg] at heq
                exact absurd heq (by simp)
              | ok r =>
                rw [hg] at heq
                exact ih _ hrest _ _ _ _ heq (parseInv_rmd _ _ _)
            · rw [if_neg h38] at heq
              by_cases h46 : ps = 46
              · rw [if_pos h46] at heq
                cases hg : get_data pd "!IBQ???????BBdd" rmdNames32 with
                | error e =>
                  rw [hg] at heq
                  exact absurd heq (by simp)
                | ok r =>
                  rw [hg] at heq
                  exact ih _ hrest _ _ _ _ heq (parseInv_rmd _ _ _)
              · rw [if_neg h46] at heq
                by_cases h47 : ps = 47
                · rw [if_pos h47] at heq
                  cases hg : get_data pd "!IBQ???????BBddc" rmdNames35 with
                  | error e =>
                    rw [hg] at heq
                    exact absurd heq (by simp)
                  | ok r =>
                    rw [hg] at heq
                    exact ih _ hrest _ _ _ _ heq (parseInv_rmd _ _ _)
                · rw [if_neg h47] at heq
                  cases hg : get_data pd "!iBQ???????Bd" rmdNamesLegacy with
                  | error e =>
                    rw [hg] at heq
                    exact absurd heq (by simp)
                  | ok r =>
                    rw [hg] at heq
                    exact ih _ hrest _ _ _ _ heq (parseInv_rmd _ _ _)
          · rw [if_neg h0] at heq
            by_cases h1 : pt = 1
            · rw [if_pos h1] at heq
              cases hg : get_data pd
                  "!iB dddffffB dddffffB dddffffBdddffffB dddffffB dddffffB" jointNames with
              | error e =>
                rw [hg] at heq
                exact absurd heq (by simp)
              | ok r =>
                rw [hg] at heq
                exact ih _ hrest _ _ _ _ heq
                  (parseInv_keep (by decide) (by decide) (by decide) hinv _)
            · rw [if_neg h1] at heq
              by_cases h4 : pt = 4
              · rw [if_pos h4] at heq
                by_cases hver : verLt v (3, 2) = true
                · rw [if_pos hver] at heq
                  cases hg : get_data pd "iBdddddd"
                      ["size", "type", "X", "Y", "Z", "Rx", "Ry", "Rz"] with
                  | error e =>
                    rw [hg] at heq
                    exact absurd heq (by simp)
                  | ok r =>
                    rw [hg] at heq
                    exact ih _ hrest _ _ _ _ heq
                      (parseInv_keep (by decide) (by decide) (by decide) hinv _)
                · rw [if_neg hver] at heq
                  cases hg : get_data pd "iBdddddddddddd"
                      ["size", "type", "X", "Y", "Z", "Rx", "Ry", "Rz", "tcpOffsetX",
                       "tcpOffsetY", "tcpOffsetZ", "tcpOffsetRx", "tcpOffsetRy",
                       "tcpOffsetRz"] with
                  | error e =>
                    rw [hg] at heq
                    exact absurd heq (by simp)
                  | ok r =>
                    rw [hg] at heq
                    exact ih _ hrest _ _ _ _ heq
                      (parseInv_keep (by decide) (by decide) (by decide) hinv _)
              · rw [if_neg h4] at heq
                by_cases h5 : pt = 5
                · rw [if_pos h5] at heq
                  cases hg : get_data pd "iBddd" ["size", "type"] with
                  | error e =>
                    rw [hg] at heq
                    exact absurd heq (by simp)
                  | ok r =>
                    rw [hg] at heq
                    exact ih _ hrest _ _ _ _ heq
                      (parseInv_keep (by decide) (by decide) (by decide) hinv _)
                · rw [if_neg h5] at heq
                  by_cases h3 : pt = 3
                  · rw [if_pos h3] at heq
                    cases hg : get_data pd
                        (if verGe v (3, 0) = true then "iBiibbddbbddffffBBb"
                         else "iBhhbbddbbddffffBBb") mbdNames with
                    | error e =>
                      rw [hg] at heq
                      exact absurd heq (by simp)
                    | ok r =>
                      rw [hg] at heq
                      exact ih _ hrest _ _ _ _ heq
                        (parseInv_keep (by decide) (by decide) (by decide) hinv _)
                  · rw [if_neg h3] at heq
                    by_cases h2 : pt = 2
                    · rw [if_pos h2] at heq
                      cases hg : get_data pd "iBbbddfBffB" toolNames with
                      | error e =>
                        rw [hg] at heq
                        exact absurd heq (by simp)
                      | ok r =>
                        rw [hg] at heq
                        exact ih _ hrest _ _ _ _ heq
                          (parseInv_keep (by decide) (by decide) (by decide) hinv _)
                    · rw [if_neg h2] at heq
                      by_cases h9 : pt = 9
                      · rw [if_pos h9] at heq
                        exact ih _ hrest _ _ _ _ heq hinv
                      · rw [if_neg h9] at heq
                        by_cases h8 : pt = 8 ∧ verGe v (3, 2) = true
                        · rw [if_pos h8] at heq
                          cases hg : get_data pd "iB??"
                              ["size", "type", "teachButtonPressed",
                               "teachButtonEnabled"] with
                          | error e =>
                            rw [hg] at heq
                            exact absurd heq (by simp)
                          | ok r =>
                            rw [hg] at heq
                            exact ih _ hrest _ _ _ _ heq
                              (parseInv_gated (by decide) (hinv.1 h8.2) _)
                        · rw [if_neg h8] at heq
                          by_cases h7 : pt = 7 ∧ verGe v (3, 2) = true
                          · rw [if_pos h7] at heq
                            cases hg : get_data pd "iBddddddd"
                                ["size", "type", "x", "y", "z", "rx", "ry", "rz",
                                 "robotDexterity"] with
                            | error e =>
                              rw [hg] at heq
                              exact absurd heq (by simp)
                            | ok r =>
                              rw [hg] at heq
                              exact ih _ hrest _ _ _ _ heq
                                (parseInv_gated (by decide) (hinv.1 h7.2) _)
                          · rw [if_neg h7] at heq
                            by_cases h20 : pt = 20
                            · rw [if_pos h20] at heq
                              cases hg : get_data pd "!iB Qbb"
                                  ["size", "type", "timestamp", "source",
                                   "robotMessageType"] with
                              | error e =>
                                rw [hg] at heq
                                exact absurd heq (by simp)
                              | ok tmp =>
                                rw [hg] at heq
                                simp only [] at heq
                                by_cases hm3 : alookup tmp "robotMessageType" =
                                    some (.vint 3)
                                · rw [if_pos hm3] at heq
                                  cases hg2 : get_data pd "!iBQbb bAbBBiAb"
                                      ["size", "type", "timestamp", "source",
                                       "robotMessageType", "projectNameSize", "projectName",
                                       "majorVersion", "minorVersion", "svnRevision",
                                       "buildDate"] with
                                  | error e =>
                                    rw [hg2] at heq
                                    exact absurd heq (by simp)
                                  | ok r =>
                                    rw [hg2] at heq
                                    exact ih _ hrest _ _ _ _ heq
                                      (parseInv_keep (by decide) (by decide) (by decide)
                                        hinv _)
                                · rw [if_neg hm3] at heq
                                  by_cases hm6 : alookup tmp "robotMessageType" =
                                      some (.vint 6)
                                  · rw [if_pos hm6] at heq
                                    cases hg2 : get_data pd "!iBQbb iiAc"
                                        ["size", "type", "timestamp", "source",
                                         "robotMessageType", "code", "argument",
                                         "messageText"] with
                                    | error e =>
                                      rw [hg2] at heq
                                      exact absurd heq (by simp)
                                    | ok r =>
                                      rw [hg2] at heq
                                      exact ih _ hrest _ _ _ _ heq
                                        (parseInv_keep (by decide) (by decide) (by decide)
                                          hinv _)
                                  · rw [if_neg hm6] at heq
                                    by_cases hm1 : alookup tmp "robotMessageType" =
                                        some (.vint 1)
                                    · rw [if_pos hm1] at heq
                                      cases hg2 : get_data pd "!iBQbb iAc"
                                          ["size", "type", "timestamp", "source",
                                           "robotMessageType", "id", "messageText"] with
                                      | error e =>
                                        rw [hg2] at heq
                                        exact absurd heq (by simp)
                                      | ok r =>
                                        rw [hg2] at heq
                                        exact ih _ hrest _ _ _ _ heq
                                          (parseInv_keep (by decide) (by decide)
                                            (by decide) hinv _)
                                    · rw [if_neg hm1] at heq
                                      by_cases hm2 : alookup tmp "robotMessageType" =
                                          some (.vint 2)
                                      · rw [if_pos hm2] at heq
                                        cases hg2 : get_data pd "!iBQbb ??BAcAc"
                                            ["size", "type", "timestamp", "source",
                                             "robotMessageType", "warning", "error",
                                             "titleSize", "messageTitle",
                                             "messageText"] with
                                        | error e =>
                                          rw [hg2] at heq
                                          exact absurd heq (by simp)
                                        | ok r =>
                                          rw [hg2] at heq
                                          exact ih _ hrest _ _ _ _ heq
                                            (parseInv_keep (by decide) (by decide)
                                              (by decide) hinv _)
                                      · rw [if_neg hm2] at heq
                                        by_cases hm0 : alookup tmp "robotMessageType" =
                                            some (.vint 0)
                                        · rw [if_pos hm0] at heq
                                          cases hg2 : get_data pd "!iBQbb Ac"
                                              ["size", "type", "timestamp", "source",
                                               "robotMessageType", "messageText"] with
                                          | error e =>
                                            rw [hg2] at heq
                                            exact absurd heq (by simp)
                                          | ok r =>
                                            rw [hg2] at heq
                                            exact ih _ hrest _ _ _ _ heq
                                              (parseInv_keep (by decide) (by decide)
                                                (by decide) hinv _)
                                        · rw [if_neg hm0] at heq
                                          by_cases hm8 : alookup tmp "robotMessageType" =
                                              some (.vint 8)
                                          · rw [if_pos hm8] at heq
                                            cases hg2 : get_data pd "!iBQbb iiBAcAc"
                                                ["size", "type", "timestamp", "source",
                                                 "robotMessageType", "code", "argument",
                                                 "titleSize", "messageTitle",
                                                 "messageText"] with
                                            | error e =>
                                              rw [hg2] at heq
                                              exact absurd heq (by simp)
                                            | ok r =>
                                              rw [hg2] at heq
                                              exact ih _ hrest _ _ _ _ heq
                                                (parseInv_keep (by decide) (by decide)
                                                  (by decide) hinv _)
                                          · rw [if_neg hm8] at heq
                                            by_cases hm7 : alookup tmp
                                                "robotMessageType" = some (.vint 7)
                                            · rw [if_pos hm7] at heq
                                              cases hg2 : get_data pd "!iBQbb iiBAcAc"
                                                  ["size", "type", "timestamp", "source",
                                                   "robotMessageType", "code", "argument",
                                                   "titleSize", "messageTitle",
                                                   "messageText"] with
                                              | error e =>
                                                rw [hg2] at heq
                                                exact absurd heq (by simp)
                                              | ok r =>
                                                rw [hg2] at heq
                                                exact ih _ hrest _ _ _ _ heq
                                                  (parseInv_keep (by decide) (by decide)
                                                    (by decide) hinv _)
                                            · rw [if_neg hm7] at heq
                                              by_cases hm5 : alookup tmp
                                                  "robotMessageType" = some (.vint 5)
                                              · rw [if_pos hm5] at heq
                                                cases hg2 : get_data pd "!iBQbb iiAc"
                                                    ["size", "type", "timestamp",
                                                     "source", "robotMessageType", "code",
                                                     "argument", "messageText"] with
                                                | error e =>
                                                  rw [hg2] at heq
                                                  exact absurd heq (by simp)
                                                | ok r =>
                                                  rw [hg2] at heq
                                                  exact ih _ hrest _ _ _ _ heq
                                                    (parseInv_keep (by decide)
                                                      (by decide) (by decide) hinv _)
                                              · rw [if_neg hm5] at heq
                                                exact ih _ hrest _ _ _ _ heq hinv
                            · rw [if_neg h20] at heq
                              exact ih _ hrest _ _ _ _ heq hinv

/-! ## Claim theorems -/

/-- C2, counterexample: with an empty state dictionary (no packet type ever
observed), `get_digital_out`, `get_digital_in`, `get_analog_in` and
`is_program_running` raise `KeyError` instead of returning an explicit
"not yet available" result, contradicting the claim that every typed getter
returns one. -/
theorem C2_counterexample :
    get_digital_out [] 0 = .error "KeyError" ∧
    get_digital_in [] 0 = .error "KeyError" ∧
    get_analog_in [] 0 = .error "KeyError" ∧
    is_program_running [] = .error "KeyError" :=
  ⟨rfl, rfl, rfl, rfl⟩

/-- C2, amended: with `wait=False` and the underlying packet type never
observed, only `get_cartesian_info` and `get_joint_data` return an explicit
`None`; `get_digital_out`, `get_digital_in` and `get_analog_in` raise
`KeyError` when `MasterBoardData` is absent, and `is_program_running` raises
`KeyError` when `RobotModeData` is absent. -/
theorem C2_getters_absent (d : PDict) (nb : Nat) :
    (alookup d "CartesianInfo" = none → get_cartesian_info d = .ok none) ∧
    (alookup d "JointData" = none → get_joint_data d = .ok none) ∧
    (alookup d "MasterBoardData" = none →
      get_digital_out d nb = .error "KeyError" ∧
      get_digital_in d nb = .error "KeyError" ∧
      get_analog_in d nb = .error "KeyError") ∧
    (alookup d "RobotModeData" = none → is_program_running d = .error "KeyError") := by
  refine ⟨fun h => ?_, fun h => ?_, fun h => ?_, fun h => ?_⟩
  · rw [get_cartesian_info, h]
  · rw [get_joint_data, h]
  · rw [get_digital_out, get_digital_in, get_analog_in, h]
    exact ⟨rfl, rfl, rfl⟩
  · rw [is_program_running, h]

/-- C2, witness for the amended claim at the empty dictionary. -/
theorem C2_getters_absent_witness :
    get_cartesian_info [] = .ok none ∧ get_joint_data [] = .ok none ∧
    (get_digital_out [] 3 = .error "KeyError" ∧ get_digital_in [] 3 = .error "KeyError" ∧
      get_analog_in [] 3 = .error "KeyError") ∧
    is_program_running [] = .error "KeyError" := by
  obtain ⟨h1, h2, h3, h4⟩ := C2_getters_absent [] 3
  exact ⟨h1 rfl, h2 rfl, h3 rfl, h4 rfl⟩

/-- C6, code bug: `send_program` executes `prog.strip()` as a bare statement
and discards the result, so the buffer appended to the queue keeps the
trailing whitespace of the program; the claimed buffer (trailing whitespace
removed, then one terminator byte) differs at the program `"movej(q)  "`. -/
theorem C6_strip_discarded :
    send_program_buffer (strBytes "movej(q)  ") = strBytes "movej(q)  " ++ [10] ∧
    send_program_buffer_claimed (strBytes "movej(q)  ") = strBytes "movej(q)" ++ [10] ∧
    send_program_buffer (strBytes "movej(q)  ") ≠
      send_program_buffer_claimed (strBytes "movej(q)  ") := by
  refine ⟨rfl, by decide, by decide⟩

/-- C9: once a `MasterBoardData` record is present, `get_digital_out nb`
returns 1 exactly when bit `nb` of the stored `digitalOutputBits` value is set
and 0 otherwise, and symmetrically `get_digital_in nb` for
`digitalInputBits`. -/
theorem C9_digital_bit (d : PDict) (mbd : PRec) (outv inv : Int) (nb : Nat)
    (hd : alookup d "MasterBoardData" = some mbd)
    (hout : alookup mbd "digitalOutputBits" = some (.vint outv))
    (hin : alookup mbd "digitalInputBits" = some (.vint inv)) :
    get_digital_out d nb = .ok (if outv.testBit nb then 1 else 0) ∧
    get_digital_in d nb = .ok (if inv.testBit nb then 1 else 0) := by
  constructor
  · simp only [get_digital_out, hd, hout]
    by_cases hb : outv.testBit nb
    · rw [if_pos ((land_two_pow_ne_zero_iff outv nb).2 hb), if_pos hb]
    · rw [if_neg (fun hc => hb ((land_two_pow_ne_zero_iff outv nb).1 hc)), if_neg hb]
  · simp only [get_digital_in, hd, hin]
    by_cases hb : inv.testBit nb
    · rw [if_pos ((land_two_pow_ne_zero_iff inv nb).2 hb), if_pos hb]
    · rw [if_neg (fun hc => hb ((land_two_pow_ne_zero_iff inv nb).1 hc)), if_neg hb]

/-- C9, witness: `digitalOutputBits = 5` has bits 0 and 2 set, bit 1 clear;
`digitalInputBits = 2` has bit 1 set. -/
theorem C9_digital_bit_witness :
    get_digital_out [("MasterBoardData",
        [("digitalInputBits", .vint 2), ("digitalOutputBits", .vint 5)])] 1 = .ok 0 ∧
    get_digital_in [("MasterBoardData",
        [("digitalInputBits", .vint 2), ("digitalOutputBits", .vint 5)])] 1 = .ok 1 := by
  have h := C9_digital_bit
    [("MasterBoardData", [("digitalInputBits", .vint 2), ("digitalOutputBits", .vint 5)])]
    [("digitalInputBits", .vint 2), ("digitalOutputBits", .vint 5)] 5 2 1 rfl rfl rfl
  rw [h.1, h.2]
  exact ⟨by decide, by decide⟩

/-- C7: when decoding a frame raises `ParsingException`, the receive loop
iteration leaves the shared dictionary, the running flag and the packet
timestamp exactly as they were; only the parser version keeps whatever
mutation happened before the raise.  The failure is scoped to the single
frame: the iteration returns a well-defined state and the loop continues. -/
theorem C7_parse_error_state_unchanged (st : MonState) (data : List Nat) (now : Nat)
    (e : String) (h : (parse st.version data).2 = .error e) :
    runIteration st data now = { st with version := (parse st.version data).1 } ∧
    (runIteration st data now).dict = st.dict ∧
    (runIteration st data now).running = st.running ∧
    (runIteration st data now).lastpacket = st.lastpacket := by
  rcases hp : parse st.version data with ⟨v2, res⟩
  rw [hp] at h
  simp only at h
  subst h
  have hr : runIteration st data now = { st with version := v2 } := by
    rw [runIteration, hp]
  exact ⟨hr, by rw [hr], by rw [hr], by rw [hr]⟩

/-- C7, witness: a wrapped `RobotModeData` frame whose declared inner size 6
leaves only one byte for the 8-byte `timestamp` field, so `_get_data` raises;
the iteration keeps the sample state's dictionary. -/
theorem C7_parse_error_witness :
    (parse sampleMonState.version [0, 0, 0, 11, 16, 0, 0, 0, 6, 0, 9]).2 =
      .error "Error, length of data smaller than advertized" ∧
    (runIteration sampleMonState [0, 0, 0, 11, 16, 0, 0, 0, 6, 0, 9] 9).dict =
      sampleMonState.dict := by
  have hA : analyze_header [0, 0, 0, 11, 16, 0, 0, 0, 6, 0, 9] =
      .ok (11, 16, [0, 0, 0, 11, 16, 0, 0, 0, 6, 0, 9], []) := by decide
  have hG : get_data [0, 0, 0, 11, 16, 0, 0, 0, 6, 0, 9] "!iB" ["size", "type"] =
      .ok [("size", .vint 11), ("type", .vint 16)] := by decide
  have hA2 : analyze_header [0, 0, 0, 6, 0, 9] = .ok (6, 0, [0, 0, 0, 6, 0, 9], []) := by
    decide
  have hG2 : get_data [0, 0, 0, 6, 0, 9] "!iBQ???????Bd" rmdNamesLegacy =
      .error "Error, length of data smaller than advertized" := by decide
  have hp : parse (3, 0) [0, 0, 0, 11, 16, 0, 0, 0, 6, 0, 9] =
      ((3, 0), .error "Error, length of data smaller than advertized") := by
    rw [parse, parseLoop_16 hA hG]
    have hdrop : List.drop 5 ([0, 0, 0, 11, 16, 0, 0, 0, 6, 0, 9] ++ ([] : List Nat)) =
        [0, 0, 0, 6, 0, 9] := by decide
    rw [hdrop]
    exact parseLoop_rmdLegacy_err hA2 (by decide) (by decide) (by decide) hG2 _ _
  have hv : sampleMonState.version = (3, 0) := rfl
  refine ⟨by rw [hv, hp], ?_⟩
  exact (C7_parse_error_state_unchanged sampleMonState
    [0, 0, 0, 11, 16, 0, 0, 0, 6, 0, 9] 9 "Error, length of data smaller than advertized"
    (by rw [hv, hp])).2.1

/-- C4, counterexample: an iteration receiving a frame whose batch parses
successfully but contains no `RobotModeData` record still replaces the shared
dictionary with the new batch, so the previous snapshot (which held
`RobotModeData`) is lost, contradicting the claim that the snapshot stays
unchanged in that case. -/
theorem C4_counterexample :
    (runIteration sampleMonState [0, 0, 0, 5, 16] 9).dict ≠ sampleMonState.dict ∧
    alookup (runIteration sampleMonState [0, 0, 0, 5, 16] 9).dict "RobotModeData" = none ∧
    alookup sampleMonState.dict "RobotModeData" ≠ none := by
  have hA : analyze_header [0, 0, 0, 5, 16] = .ok (5, 16, [0, 0, 0, 5, 16], []) := by decide
  have hG : get_data [0, 0, 0, 5, 16] "!iB" ["size", "type"] =
      .ok [("size", .vint 5), ("type", .vint 16)] := by decide
  have hp : parse (3, 0) [0, 0, 0, 5, 16] =
      ((3, 0), .ok [("SecondaryClientData", [("size", .vint 5), ("type", .vint 16)])]) := by
    rw [parse, parseLoop_16 hA hG]
    have hdrop : List.drop 5 ([0, 0, 0, 5, 16] ++ ([] : List Nat)) = [] := by decide
    rw [hdrop, parseLoop_nil]
    rfl
  have hrun : runIteration sampleMonState [0, 0, 0, 5, 16] 9 =
      { sampleMonState with
        dict := [("SecondaryClientData", [("size", .vint 5), ("type", .vint 16)])]
        version := (3, 0) } := by
    rw [runIteration]
    have hv : sampleMonState.version = (3, 0) := rfl
    rw [hv, hp]
    rfl
  rw [hrun]
  refine ⟨by decide, by decide, by decide⟩

/-- C4, amended: the receive loop replaces the shared dictionary with every
successfully parsed batch, whether or not the batch contains `RobotModeData`;
when `RobotModeData` is absent the iteration merely skips the timestamp
update, the running-flag recompute and the waiter notification. -/
theorem C4_snapshot_replaced (st : MonState) (data : List Nat) (now : Nat)
    (v' : Version) (d : PDict) (hp : parse st.version data = (v', .ok d))
    (hno : alookup d "RobotModeData" = none) :
    runIteration st data now = { st with dict := d, version := v' } := by
  simp only [runIteration, hp, hno]

/-- C4, witness for the amended claim: the type-16-only frame of the
counterexample. -/
theorem C4_snapshot_replaced_witness :
    runIteration sampleMonState [0, 0, 0, 5, 16] 9 =
      { sampleMonState with
        dict := [("SecondaryClientData", [("size", .vint 5), ("type", .vint 16)])]
        version := (3, 0) } := by
  have hA : analyze_header [0, 0, 0, 5, 16] = .ok (5, 16, [0, 0, 0, 5, 16], []) := by decide
  have hG : get_data [0, 0, 0, 5, 16] "!iB" ["size", "type"] =
      .ok [("size", .vint 5), ("type", .vint 16)] := by decide
  have hp : parse sampleMonState.version [0, 0, 0, 5, 16] =
      ((3, 0), .ok [("SecondaryClientData", [("size", .vint 5), ("type", .vint 16)])]) := by
    have hv : sampleMonState.version = (3, 0) := rfl
    rw [hv, parse, parseLoop_16 hA hG]
    have hdrop : List.drop 5 ([0, 0, 0, 5, 16] ++ ([] : List Nat)) = [] := by decide
    rw [hdrop, parseLoop_nil]
    rfl
  exact C4_snapshot_replaced sampleMonState [0, 0, 0, 5, 16] 9 (3, 0)
    [("SecondaryClientData", [("size", .vint 5), ("type", .vint 16)])] hp rfl

/-- C1, counterexample: decoding a size-46 `RobotModeData` frame sets the
version to (3, 2), which is at least (3, 0); a subsequent parse of a size-38
frame assigns (3, 0) unconditionally, which is strictly smaller — the version
is not monotonic. -/
theorem C1_version_decreases :
    (parse (0, 0) rmdFrame46).1 = (3, 2) ∧
    verGe (3, 2) (3, 0) = true ∧
    (parse (3, 2) rmdFrame38).1 = (3, 0) ∧
    verLt (3, 0) (3, 2) = true := by
  have hA46 : analyze_header rmdFrame46 = .ok (46, 0, rmdFrame46, []) := by decide
  have hG46 : get_data rmdFrame46 "!IBQ???????BBdd" rmdNames32 =
      .ok [("size", .vint 46), ("type", .vint 0), ("timestamp", .vint 0),
        ("isRobotConnected", .vbool false), ("isRealRobotEnabled", .vbool false),
        ("isPowerOnRobot", .vbool false), ("isEmergencyStopped", .vbool false),
        ("isSecurityStopped", .vbool false), ("isProgramRunning", .vbool false),
        ("isProgramPaused", .vbool false), ("robotMode", .vint 0), ("controlMode", .vint 0),
        ("speedFraction", .vfloat [0, 0, 0, 0, 0, 0, 0, 0]),
        ("speedScaling", .vfloat [0, 0, 0, 0, 0, 0, 0, 0])] := by decide
  have hA38 : analyze_header rmdFrame38 = .ok (38, 0, rmdFrame38, []) := by decide
  have hG38 : get_data rmdFrame38 "!IBQ???????BBdd" rmdNames30 =
      .ok [("size", .vint 38), ("type", .vint 0), ("timestamp", .vint 0),
        ("isRobotConnected", .vbool false), ("isRealRobotEnabled", .vbool false),
        ("isPowerOnRobot", .vbool false), ("isEmergencyStopped", .vbool false),
        ("isSecurityStopped", .vbool false), ("isProgramRunning", .vbool false),
        ("isProgramPaused", .vbool false), ("robotMode", .vint 0), ("controlMode", .vint 0),
        ("speedFraction", .vfloat [0, 0, 0, 0, 0, 0, 0, 0]),
        ("speedScaling", .vfloat [0, 0, 0, 0, 0, 0, 0, 0])] := by decide
  refine ⟨?_, by decide, ?_, by decide⟩
  · rw [parse, parseLoop_rmd46 hA46 hG46, parseLoop_nil]
  · rw [parse, parseLoop_rmd38 hA38 hG38, parseLoop_nil]

/-- C1, amended: `parse` assigns the version mapped from the declared size of
every `RobotModeData` frame of size 38, 46 or 47 unconditionally — the
resulting version is exactly (3, 0), (3, 2) or (3, 5) regardless of the prior
version, so a smaller-size frame decoded after a larger one lowers the
version. -/
theorem C1_version_reassigned (v : Version) (p33 p41 p42 : List Nat)
    (h33 : p33.length = 33) (h41 : p41.length = 41) (h42 : p42.length = 42) :
    (parse v (be4 38 ++ 0 :: p33)).1 = (3, 0) ∧
    (parse v (be4 46 ++ 0 :: p41)).1 = (3, 2) ∧
    (parse v (be4 47 ++ 0 :: p42)).1 = (3, 5) := by
  refine ⟨?_, ?_, ?_⟩
  · have hA : analyze_header (be4 38 ++ 0 :: p33) =
        .ok (((38 : Nat) : Int), 0, be4 38 ++ 0 :: p33, []) :=
      analyze_header_mk (by simp [h33]) (by norm_num) (by norm_num)
    obtain ⟨r, hG⟩ := get_data_rmd30_ok 0 0 0 38 0 h33
    rw [parse, parseLoop_rmd38 hA hG, parseLoop_nil]
  · have hA : analyze_header (be4 46 ++ 0 :: p41) =
        .ok (((46 : Nat) : Int), 0, be4 46 ++ 0 :: p41, []) :=
      analyze_header_mk (by simp [h41]) (by norm_num) (by norm_num)
    obtain ⟨r, hG⟩ := get_data_rmd32_ok 0 0 0 46 0 h41
    rw [parse, parseLoop_rmd46 hA hG, parseLoop_nil]
  · have hA : analyze_header (be4 47 ++ 0 :: p42) =
        .ok (((47 : Nat) : Int), 0, be4 47 ++ 0 :: p42, []) :=
      analyze_header_mk (by simp [h42]) (by norm_num) (by norm_num)
    obtain ⟨r, hG⟩ := get_data_rmd35_ok 0 0 0 47 0 h42
    rw [parse, parseLoop_rmd47 hA hG, parseLoop_nil]

/-- C1, witness for the amended claim at prior version (3, 5) with all-zero
payloads: each size reassigns the version downward or upward regardless. -/
theorem C1_version_reassigned_witness :
    (parse (3, 5) (be4 38 ++ 0 :: List.replicate 33 0)).1 = (3, 0) ∧
    (parse (3, 5) (be4 46 ++ 0 :: List.replicate 41 0)).1 = (3, 2) ∧
    (parse (3, 5) (be4 47 ++ 0 :: List.replicate 42 0)).1 = (3, 5) :=
  C1_version_reassigned (3, 5) (List.replicate 33 0) (List.replicate 41 0)
    (List.replicate 42 0) (by decide) (by decide) (by decide)

/-- C3, code bug: for a well-formed size-46 `RobotModeData` frame the source
declares 15 key names (including `speedFractionLimit`) but its format string
`"!IBQ???????BBdd"` holds only 14 codes, consuming 38 of the 46 declared
bytes, so the decoded record has 14 fields and `speedFractionLimit` is never
filled; for size 47 the names list has 16 entries but only 15 fields are
decoded and `reservedByUR` is never filled.  The version assignments (3, 2)
and (3, 5) behave as claimed. -/
theorem C3_missing_format_codes :
    (∃ r, parse (0, 0) rmdFrame46 = ((3, 2), .ok [("RobotModeData", r)]) ∧
      r.length = 14 ∧ alookup r "speedFractionLimit" = none) ∧
    rmdNames32.length = 15 ∧
    (∃ r, parse (0, 0) rmdFrame47 = ((3, 5), .ok [("RobotModeData", r)]) ∧
      r.length = 15 ∧ alookup r "reservedByUR" = none) ∧
    rmdNames35.length = 16 := by
  have hA46 : analyze_header rmdFrame46 = .ok (46, 0, rmdFrame46, []) := by decide
  obtain ⟨r46, hG46, hlen46, hsfl46⟩ :
      ∃ r, get_data rmdFrame46 "!IBQ???????BBdd" rmdNames32 = .ok r ∧
        r.length = 14 ∧ alookup r "speedFractionLimit" = none :=
    ⟨[("size", .vint 46), ("type", .vint 0), ("timestamp", .vint 0),
      ("isRobotConnected", .vbool false), ("isRealRobotEnabled", .vbool false),
      ("isPowerOnRobot", .vbool false), ("isEmergencyStopped", .vbool false),
      ("isSecurityStopped", .vbool false), ("isProgramRunning", .vbool false),
      ("isProgramPaused", .vbool false), ("robotMode", .vint 0), ("controlMode", .vint 0),
      ("speedFraction", .vfloat [0, 0, 0, 0, 0, 0, 0, 0]),
      ("speedScaling", .vfloat [0, 0, 0, 0, 0, 0, 0, 0])], by decide, by decide, by decide⟩
  have hA47 : analyze_header rmdFrame47 = .ok (47, 0, rmdFrame47, []) := by decide
  obtain ⟨r47, hG47, hlen47, hru47⟩ :
      ∃ r, get_data rmdFrame47 "!IBQ???????BBddc" rmdNames35 = .ok r ∧
        r.length = 15 ∧ alookup r "reservedByUR" = none :=
    ⟨[("size", .vint 47), ("type", .vint 0), ("timestamp", .vint 0),
      ("isRobotConnected", .vbool false), ("isRealRobotEnabled", .vbool false),
      ("isPowerOnRobot", .vbool false), ("isEmergencyStopped", .vbool false),
      ("isSecurityStopped", .vbool false), ("isProgramRunning", .vbool false),
      ("isProgramPaused", .vbool false), ("robotMode", .vint 0), ("controlMode", .vint 0),
      ("speedFraction", .vfloat [0, 0, 0, 0, 0, 0, 0, 0]),
      ("speedScaling", .vfloat [0, 0, 0, 0, 0, 0, 0, 0]),
      ("speedFractionLimit", .vbytes [0])], by decide, by decide, by decide⟩
  refine ⟨⟨r46, ?_, hlen46, hsfl46⟩, by decide, ⟨r47, ?_, hlen47, hru47⟩, by decide⟩
  · rw [parse, parseLoop_rmd46 hA46 hG46, parseLoop_nil]
    rfl
  · rw [parse, parseLoop_rmd47 hA47 hG47, parseLoop_nil]
    rfl

/-- C8: a packet-type-20 frame whose `robotMessageType` is 2 decodes to a
`popupMessage` record in which `warning` and `error` are the decoded booleans
of the two flag bytes, `messageTitle` is exactly the `titleSize` bytes
following the `titleSize` field, and `messageText` is exactly the remaining
payload, for titles and texts of arbitrary content. -/
theorem C8_popup_message (v : Version) (ts0 ts1 ts2 ts3 ts4 ts5 ts6 ts7 src w e : Nat)
    (title text : List Nat) (htl : title.length ≤ 255) (hw : w < 256) (he : e < 256)
    (hsz : title.length + text.length ≤ 1982) :
    ∃ r, parse v (be4 (18 + title.length + text.length) ++ 20 :: ts0 :: ts1 :: ts2 :: ts3 ::
        ts4 :: ts5 :: ts6 :: ts7 :: src :: 2 :: w :: e :: title.length :: (title ++ text)) =
      (v, .ok [("popupMessage", r)]) ∧
      alookup r "warning" = some (.vbool (w != 0)) ∧
      alookup r "error" = some (.vbool (e != 0)) ∧
      alookup r "titleSize" = some (.vint (title.length : Int)) ∧
      alookup r "messageTitle" = some (.vbytes title) ∧
      alookup r "messageText" = some (.vbytes text) := by
  have hA : analyze_header (be4 (18 + title.length + text.length) ++ 20 :: ts0 :: ts1 ::
      ts2 :: ts3 :: ts4 :: ts5 :: ts6 :: ts7 :: src :: 2 :: w :: e :: title.length ::
      (title ++ text)) =
      .ok (((18 + title.length + text.length : Nat) : Int), 20,
        be4 (18 + title.length + text.length) ++ 20 :: ts0 :: ts1 :: ts2 :: ts3 :: ts4 ::
          ts5 :: ts6 :: ts7 :: src :: 2 :: w :: e :: title.length :: (title ++ text), []) :=
    analyze_header_mk (by simp; omega) (by omega) (by norm_num)
  obtain ⟨tmp, hGt, hmt⟩ := get_data_popup_tmp_ok
    ((18 + title.length + text.length) / 16777216 % 256)
    ((18 + title.length + text.length) / 65536 % 256)
    ((18 + title.length + text.length) / 256 % 256)
    ((18 + title.length + text.length) % 256) 20 ts0 ts1 ts2 ts3 ts4 ts5 ts6 ts7 src 2
    (w :: e :: title.length :: (title ++ text)) (by norm_num)
  obtain ⟨r, hGr, hwv, hev, htsv, htitle, htext⟩ := get_data_popup_full_ok
    ((18 + title.length + text.length) / 16777216 % 256)
    ((18 + title.length + text.length) / 65536 % 256)
    ((18 + title.length + text.length) / 256 % 256)
    ((18 + title.length + text.length) % 256) 20 ts0 ts1 ts2 ts3 ts4 ts5 ts6 ts7 src 2 w e
    title text htl hw he
  refine ⟨r, ?_, hwv, hev, htsv, htitle, htext⟩
  rw [parse, parseLoop_popup hA hGt hmt hGr, parseLoop_nil]
  rfl

/-- C8, witness: a concrete popup frame with warning byte 1, error byte 0,
one-byte title and two-byte text. -/
theorem C8_popup_message_witness :
    ∃ r, parse (0, 0) (be4 21 ++ 20 :: 0 :: 0 :: 0 :: 0 :: 0 :: 0 :: 0 :: 0 :: 0 :: 2 ::
        1 :: 0 :: 1 :: ([65] ++ [66, 67])) =
      ((0, 0), .ok [("popupMessage", r)]) ∧
      alookup r "warning" = some (.vbool true) ∧
      alookup r "error" = some (.vbool false) ∧
      alookup r "titleSize" = some (.vint 1) ∧
      alookup r "messageTitle" = some (.vbytes [65]) ∧
      alookup r "messageText" = some (.vbytes [66, 67]) :=
  C8_popup_message (0, 0) 0 0 0 0 0 0 0 0 0 1 0 [65] [66, 67] (by decide) (by decide)
    (by decide) (by decide)

/-- C10: while the parser version is below (3, 2), well-framed packets of
types 8 and 7 are silently dropped by the unknown-packet branch, producing no
record and leaving the version unchanged; and in every successfully parsed
batch starting below (3, 2), an `AdditionalInfo` or `ForceModeData` entry can
only be present if a `RobotModeData` record (the only packet that raises the
version) is also in the batch. -/
theorem C10_version_gated_records (vlow : Version) (hv : verLt vlow (3, 2) = true) :
    (∀ payload : List Nat, payload.length ≤ 1995 →
      parse vlow (be4 (5 + payload.length) ++ 8 :: payload) = (vlow, .ok []) ∧
      parse vlow (be4 (5 + payload.length) ++ 7 :: payload) = (vlow, .ok [])) ∧
    (∀ data v' d', parse vlow data = (v', .ok d') →
      (hasKey d' "AdditionalInfo" = true ∨ hasKey d' "ForceModeData" = true) →
      hasKey d' "RobotModeData" = true) := by
  have hge : verGe vlow (3, 2) = false := by
    rw [verGe, hv]
    rfl
  constructor
  · intro payload hlen
    constructor
    · have hA : analyze_header (be4 (5 + payload.length) ++ 8 :: payload) =
          .ok (((5 + payload.length : Nat) : Int), 8,
            be4 (5 + payload.length) ++ 8 :: payload, []) :=
        analyze_header_mk (by omega) (by omega) (by norm_num)
      rw [parse, parseLoop_type8_low hA hge, parseLoop_nil]
    · have hA : analyze_header (be4 (5 + payload.length) ++ 7 :: payload) =
          .ok (((5 + payload.length : Nat) : Int), 7,
            be4 (5 + payload.length) ++ 7 :: payload, []) :=
        analyze_header_mk (by omega) (by omega) (by norm_num)
      rw [parse, parseLoop_type7_low hA hge, parseLoop_nil]
  · intro data v' d' hp hor
    have hinv0 : parseInv vlow [] := by
      constructor
      · intro hc
        rw [hge] at hc
        cases hc
      · intro hc
        simp [hasKey, alookup] at hc
    exact (parseLoop_inv_aux data.length data le_rfl vlow [] v' d' hp hinv0).2 hor

/-- C10, witness: below (3, 2) a type-8 and a type-7 frame yield an empty
batch; and a concrete batch holding `AdditionalInfo` (size-46 RobotModeData
followed by a type-8 packet, parsed from version (3, 0)) indeed holds
`RobotModeData`. -/
theorem C10_version_gated_records_witness :
    parse (3, 0) (be4 7 ++ 8 :: [0, 0]) = ((3, 0), .ok []) ∧
    parse (3, 0) (be4 7 ++ 7 :: [0, 0]) = ((3, 0), .ok []) ∧
    (∃ d, parse (3, 0) (rmdFrame46 ++ [0, 0, 0, 7, 8, 0, 0]) = ((3, 2), .ok d) ∧
      hasKey d "AdditionalInfo" = true ∧ hasKey d "RobotModeData" = true) := by
  obtain ⟨hlow, hbatch⟩ := C10_version_gated_records (3, 0) (by decide)
  obtain ⟨h8, h7⟩ := hlow [0, 0] (by decide)
  refine ⟨h8, h7, ?_⟩
  have hA1 : analyze_header (rmdFrame46 ++ [0, 0, 0, 7, 8, 0, 0]) =
      .ok (46, 0, rmdFrame46, [0, 0, 0, 7, 8, 0, 0]) := by decide
  obtain ⟨r46, hG46⟩ := get_data_rmd32_ok 0 0 0 46 0
    (show (List.replicate 41 0).length = 41 by decide)
  have hA2 : analyze_header [0, 0, 0, 7, 8, 0, 0] =
      .ok (7, 8, [0, 0, 0, 7, 8, 0, 0], []) := by decide
  have hG8 : get_data [0, 0, 0, 7, 8, 0, 0] "iB??"
      ["size", "type", "teachButtonPressed", "teachButtonEnabled"] =
      .ok [("size", .vint 7), ("type", .vint 8), ("teachButtonPressed", .vbool false),
        ("teachButtonEnabled", .vbool false)] := by decide
  have hp : parse (3, 0) (rmdFrame46 ++ [0, 0, 0, 7, 8, 0, 0]) =
      ((3, 2), .ok (ainsert (ainsert [] "RobotModeData" r46) "AdditionalInfo"
        [("size", .vint 7), ("type", .vint 8), ("teachButtonPressed", .vbool false),
         ("teachButtonEnabled", .vbool false)])) := by
    rw [parse, parseLoop_rmd46 hA1 hG46,
      parseLoop_type8_ok hA2 (by decide) hG8, parseLoop_nil]
  refine ⟨_, hp, hasKey_ainsert_self _ _ _, ?_⟩
  exact hbatch (rmdFrame46 ++ [0, 0, 0, 7, 8, 0, 0]) (3, 2) _ hp
    (Or.inl (hasKey_ainsert_self _ _ _))

/-- C5: `find_first_packet` returns exactly the least-index valid-header
split: `firstValidIndex` is the least position whose header satisfies
`5 <= declared_size <= 2000` and `packet_type = 16` with at least five bytes
remaining; when no position qualifies the scanner returns `none`, and at the
first qualifying position it returns the first `declared_size` bytes paired
with all bytes after them when the buffer is long enough, or `none`
(incomplete input, not an error) otherwise. -/
theorem C5_find_first_packet (data : List Nat) :
    (find_first_packet data =
      match firstValidIndex data with
      | none => none
      | some i =>
        if (get_header (data.drop i)).1 ≤ ((data.drop i).length : Int) then
          some ((data.drop i).take (get_header (data.drop i)).1.toNat,
            (data.drop i).drop (get_header (data.drop i)).1.toNat)
        else none) ∧
    (∀ i, firstValidIndex data = some i →
      validHeaderAt data i ∧ ∀ j, j < i → ¬ validHeaderAt data j) ∧
    (firstValidIndex data = none → ∀ j, ¬ validHeaderAt data j) :=
  ⟨find_first_packet_eq_spec data, (firstValidIndex_least data).1,
    (firstValidIndex_least data).2⟩

/-- C5, witness: one garbage byte followed by a complete valid frame of
declared size 6; the scanner drops the garbage byte and returns the frame and
the empty remainder. -/
theorem C5_find_first_packet_witness :
    find_first_packet [9, 0, 0, 0, 6, 16, 7] = some ([0, 0, 0, 6, 16, 7], []) ∧
    validHeaderAt [9, 0, 0, 0, 6, 16, 7] 1 ∧
    (∀ j, j < 1 → ¬ validHeaderAt [9, 0, 0, 0, 6, 16, 7] j) := by
  have h := C5_find_first_packet [9, 0, 0, 0, 6, 16, 7]
  have hfvi : firstValidIndex [9, 0, 0, 0, 6, 16, 7] = some 1 := by decide
  obtain ⟨hval, hleast⟩ := h.2.1 1 hfvi
  refine ⟨?_, hval, hleast⟩
  rw [h.1, hfvi]
  decide

end URTcp
